import Mathlib

/-! # Kirby AP payload: mailbox poller and effect applier

A shallow embedding of `worlds/kirbyam/kirby_ap_payload/ap_payload.c`.

The C code works on ten memory-mapped registers at pairwise distinct
addresses.  The memory they form is modelled by the record `State`, one
field per register, named after the C accessor (register) that reaches it.
Register values are natural numbers; every C operation that can leave the
range of its type is followed by an explicit reduction modulo `2^32`
(`uint32_t`) or `2^8` (`uint8_t`).

Besides the two functions as state transformers, the file gives the list of
stores each performs, in program order, and shows that replaying the list
gives the state the function returns.
-/

namespace KirbyAP

/-- Item identifier base, `#define KIRBY_ITEM_ID_BASE_OFFSET 3860000u`. -/
def KIRBY_ITEM_ID_BASE_OFFSET : Nat := 3860000

/-- Number of values of a `uint32_t`. -/
def U32 : Nat := 2 ^ 32

/-- Number of values of a `uint8_t`. -/
def U8 : Nat := 2 ^ 8

/-- The registers the payload touches.  Spec names, in order:
`shard_mirror`, `pending_flag`, `item_id`, `from_player`, `received_counter`,
`debug_last_item_id`, `debug_last_from`, `frame_counter` (all `uint32_t`, at
`AP_BASE + 0x00 .. 0x1C`), then the game-owned bytes `shard_flags` and
`lives` (`uint8_t`). -/
structure State where
  AP_SHARD_BITFIELD : Nat
  AP_IN_FLAG : Nat
  AP_IN_ITEM_ID : Nat
  AP_IN_PLAYER : Nat
  AP_ITEM_RCVD_COUNTER : Nat
  AP_DEBUG_LAST_ITEM_ID : Nat
  AP_DEBUG_LAST_FROM : Nat
  AP_FRAME_COUNTER : Nat
  KIRBY_SHARD_FLAGS : Nat
  KIRBY_LIVES : Nat
  deriving DecidableEq

/-- Every register holds a value of its C type. -/
def State.WF (s : State) : Prop :=
  s.AP_SHARD_BITFIELD < U32 ∧ s.AP_IN_FLAG < U32 ∧ s.AP_IN_ITEM_ID < U32 ∧
  s.AP_IN_PLAYER < U32 ∧ s.AP_ITEM_RCVD_COUNTER < U32 ∧
  s.AP_DEBUG_LAST_ITEM_ID < U32 ∧ s.AP_DEBUG_LAST_FROM < U32 ∧
  s.AP_FRAME_COUNTER < U32 ∧ s.KIRBY_SHARD_FLAGS < U8 ∧ s.KIRBY_LIVES < U8

instance (s : State) : Decidable s.WF := by
  unfold State.WF; infer_instance

/-- The effect applier, `static void ap_apply_item(uint32_t ap_item_id)`. -/
def ap_apply_item (ap_item_id : Nat) (s : State) : State :=
  -- 1_UP = BASE+1
  if ap_item_id = (KIRBY_ITEM_ID_BASE_OFFSET + 1) % U32 then
    let lives := s.KIRBY_LIVES
    if lives < 255 then
      { s with KIRBY_LIVES := ((lives + 1) % U32) % U8 }
    else
      s
  -- SHARD_1..SHARD_8 = BASE+2 .. BASE+9
  else if (KIRBY_ITEM_ID_BASE_OFFSET + 2) % U32 ≤ ap_item_id ∧
      ap_item_id ≤ (KIRBY_ITEM_ID_BASE_OFFSET + 9) % U32 then
    let shard_index := (ap_item_id + U32 - (KIRBY_ITEM_ID_BASE_OFFSET + 2) % U32) % U32
    let mask := ((1 <<< shard_index) % U32) % U8
    let s1 := { s with AP_SHARD_BITFIELD := (s.AP_SHARD_BITFIELD ||| mask) % U32 }
    { s1 with KIRBY_SHARD_FLAGS := (s1.KIRBY_SHARD_FLAGS ||| mask) % U8 }
  -- Unhandled item
  else
    s

/-- The mailbox poller, `void ap_poll_mailbox_c(void)`. -/
def ap_poll_mailbox_c (s : State) : State :=
  let s1 := { s with AP_FRAME_COUNTER := (s.AP_FRAME_COUNTER + 1) % U32 }
  if s1.AP_IN_FLAG ≠ 1 then
    s1
  else
    let s2 := { s1 with AP_ITEM_RCVD_COUNTER := (s1.AP_ITEM_RCVD_COUNTER + 1) % U32 }
    let item := s2.AP_IN_ITEM_ID
    let from_player := s2.AP_IN_PLAYER
    let s3 := { s2 with AP_DEBUG_LAST_ITEM_ID := item }
    let s4 := { s3 with AP_DEBUG_LAST_FROM := from_player }
    let s5 := ap_apply_item item s4
    { s5 with AP_IN_FLAG := 0 }

/-- `n` consecutive calls of `ap_poll_mailbox_c`, nothing else touching the
registers in between. -/
def poll_times : Nat → State → State
  | 0, s => s
  | n + 1, s => poll_times n (ap_poll_mailbox_c s)

/-- What the external client stores into the mailbox input registers in one
go: a value for `AP_IN_FLAG`, one for `AP_IN_ITEM_ID`, one for `AP_IN_PLAYER`. -/
structure MailboxWrite where
  flag : Nat
  item : Nat
  player : Nat
  deriving DecidableEq

/-- The environment's step: the external client overwrites the three mailbox
input registers (it owns no other register). -/
def external_write (w : MailboxWrite) (s : State) : State :=
  { s with AP_IN_FLAG := w.flag, AP_IN_ITEM_ID := w.item, AP_IN_PLAYER := w.player }

/-- One round: an external write, then one poll. -/
def round (s : State) (w : MailboxWrite) : State :=
  ap_poll_mailbox_c (external_write w s)

/-- A finite sequence of rounds, first write first. -/
def run_rounds (s : State) (ws : List MailboxWrite) : State :=
  ws.foldl round s

/-- The writes of a sequence of rounds that the poll of their round drains:
those that leave `AP_IN_FLAG` at exactly 1. -/
def drained (ws : List MailboxWrite) : List MailboxWrite :=
  ws.filter (fun w => w.flag = 1)

/-! ## The fragment decoding, and the stores in program order -/

/-- Line 48: `uint32_t shard_index = ap_item_id - (KIRBY_ITEM_ID_BASE_OFFSET + 2u);`,
a `uint32_t` subtraction (it wraps when the subtrahend is the larger). -/
def shard_index (ap_item_id : Nat) : Nat :=
  (ap_item_id + U32 - (KIRBY_ITEM_ID_BASE_OFFSET + 2) % U32) % U32

/-- Line 49: `uint8_t mask = (uint8_t)(1u << shard_index);`. -/
def mask (shard_index : Nat) : Nat :=
  ((1 <<< shard_index) % U32) % U8

/-- The function `ap_apply_item` with lines 48 and 49, which compute the mask
from the identifier, taken as the parameter `decode`; every other line is as in
`ap_apply_item`. -/
def ap_apply_item_with (decode : Nat → Nat) (ap_item_id : Nat) (s : State) : State :=
  if ap_item_id = (KIRBY_ITEM_ID_BASE_OFFSET + 1) % U32 then
    let lives := s.KIRBY_LIVES
    if lives < 255 then
      { s with KIRBY_LIVES := ((lives + 1) % U32) % U8 }
    else
      s
  else if (KIRBY_ITEM_ID_BASE_OFFSET + 2) % U32 ≤ ap_item_id ∧
      ap_item_id ≤ (KIRBY_ITEM_ID_BASE_OFFSET + 9) % U32 then
    let mask := decode ap_item_id
    let s1 := { s with AP_SHARD_BITFIELD := (s.AP_SHARD_BITFIELD ||| mask) % U32 }
    { s1 with KIRBY_SHARD_FLAGS := (s1.KIRBY_SHARD_FLAGS ||| mask) % U8 }
  else
    s

/-- The ten registers, by the name of their C accessor. -/
inductive Reg where
  | AP_SHARD_BITFIELD
  | AP_IN_FLAG
  | AP_IN_ITEM_ID
  | AP_IN_PLAYER
  | AP_ITEM_RCVD_COUNTER
  | AP_DEBUG_LAST_ITEM_ID
  | AP_DEBUG_LAST_FROM
  | AP_FRAME_COUNTER
  | KIRBY_SHARD_FLAGS
  | KIRBY_LIVES
  deriving DecidableEq

/-- One store to a register: which register, and the value stored. -/
structure Store where
  reg : Reg
  val : Nat
  deriving DecidableEq

/-- The state after one store. -/
def State.store (s : State) (w : Store) : State :=
  match w.reg with
  | Reg.AP_SHARD_BITFIELD => { s with AP_SHARD_BITFIELD := w.val }
  | Reg.AP_IN_FLAG => { s with AP_IN_FLAG := w.val }
  | Reg.AP_IN_ITEM_ID => { s with AP_IN_ITEM_ID := w.val }
  | Reg.AP_IN_PLAYER => { s with AP_IN_PLAYER := w.val }
  | Reg.AP_ITEM_RCVD_COUNTER => { s with AP_ITEM_RCVD_COUNTER := w.val }
  | Reg.AP_DEBUG_LAST_ITEM_ID => { s with AP_DEBUG_LAST_ITEM_ID := w.val }
  | Reg.AP_DEBUG_LAST_FROM => { s with AP_DEBUG_LAST_FROM := w.val }
  | Reg.AP_FRAME_COUNTER => { s with AP_FRAME_COUNTER := w.val }
  | Reg.KIRBY_SHARD_FLAGS => { s with KIRBY_SHARD_FLAGS := w.val }
  | Reg.KIRBY_LIVES => { s with KIRBY_LIVES := w.val }

/-- The state after a sequence of stores, first store first. -/
def replay (s : State) (ws : List Store) : State :=
  ws.foldl State.store s

/-- The stores `ap_apply_item` performs, in program order; each value is
computed from the registers as they are when the store is reached. -/
def ap_apply_item_stores (ap_item_id : Nat) (s : State) : List Store :=
  if ap_item_id = (KIRBY_ITEM_ID_BASE_OFFSET + 1) % U32 then
    let lives := s.KIRBY_LIVES
    if lives < 255 then
      [⟨Reg.KIRBY_LIVES, ((lives + 1) % U32) % U8⟩]
    else
      []
  else if (KIRBY_ITEM_ID_BASE_OFFSET + 2) % U32 ≤ ap_item_id ∧
      ap_item_id ≤ (KIRBY_ITEM_ID_BASE_OFFSET + 9) % U32 then
    let shard_index := (ap_item_id + U32 - (KIRBY_ITEM_ID_BASE_OFFSET + 2) % U32) % U32
    let mask := ((1 <<< shard_index) % U32) % U8
    let w1 : Store := ⟨Reg.AP_SHARD_BITFIELD, (s.AP_SHARD_BITFIELD ||| mask) % U32⟩
    let s1 := s.store w1
    let w2 : Store := ⟨Reg.KIRBY_SHARD_FLAGS, (s1.KIRBY_SHARD_FLAGS ||| mask) % U8⟩
    [w1, w2]
  else
    []

/-- The stores `ap_poll_mailbox_c` performs, in program order (the registers are
`volatile`, so each C assignment is one store, in the order written). -/
def ap_poll_mailbox_c_stores (s : State) : List Store :=
  let w1 : Store := ⟨Reg.AP_FRAME_COUNTER, (s.AP_FRAME_COUNTER + 1) % U32⟩
  let s1 := s.store w1
  if s1.AP_IN_FLAG ≠ 1 then
    [w1]
  else
    let w2 : Store := ⟨Reg.AP_ITEM_RCVD_COUNTER, (s1.AP_ITEM_RCVD_COUNTER + 1) % U32⟩
    let s2 := s1.store w2
    let item := s2.AP_IN_ITEM_ID
    let from_player := s2.AP_IN_PLAYER
    let w3 : Store := ⟨Reg.AP_DEBUG_LAST_ITEM_ID, item⟩
    let s3 := s2.store w3
    let w4 : Store := ⟨Reg.AP_DEBUG_LAST_FROM, from_player⟩
    let s4 := s3.store w4
    [w1, w2, w3, w4] ++ ap_apply_item_stores item s4 ++ [⟨Reg.AP_IN_FLAG, 0⟩]

/-- The applier run on a list of identifiers, first identifier first. -/
def apply_all (ids : List Nat) (s : State) : State :=
  ids.foldl (fun t id => ap_apply_item id t) s

/-! ## Concrete states used to instantiate the theorems -/

/-- A state with a fragment grant pending and both counters about to wrap. -/
def pending_state : State :=
  { AP_SHARD_BITFIELD := 0, AP_IN_FLAG := 1, AP_IN_ITEM_ID := 3860005, AP_IN_PLAYER := 7,
    AP_ITEM_RCVD_COUNTER := 4294967295, AP_DEBUG_LAST_ITEM_ID := 0, AP_DEBUG_LAST_FROM := 0,
    AP_FRAME_COUNTER := 4294967295, KIRBY_SHARD_FLAGS := 0, KIRBY_LIVES := 5 }

/-- A state with nothing pending: the flag holds 2, the frame counter is two
ticks from wrapping. -/
def idle_state : State :=
  { AP_SHARD_BITFIELD := 5, AP_IN_FLAG := 2, AP_IN_ITEM_ID := 3860001, AP_IN_PLAYER := 7,
    AP_ITEM_RCVD_COUNTER := 9, AP_DEBUG_LAST_ITEM_ID := 3860003, AP_DEBUG_LAST_FROM := 4,
    AP_FRAME_COUNTER := 4294967294, KIRBY_SHARD_FLAGS := 5, KIRBY_LIVES := 5 }

/-- A state with a life grant pending and 5 lives. -/
def life_state_5 : State :=
  { AP_SHARD_BITFIELD := 5, AP_IN_FLAG := 1, AP_IN_ITEM_ID := 3860001, AP_IN_PLAYER := 7,
    AP_ITEM_RCVD_COUNTER := 9, AP_DEBUG_LAST_ITEM_ID := 0, AP_DEBUG_LAST_FROM := 0,
    AP_FRAME_COUNTER := 100, KIRBY_SHARD_FLAGS := 5, KIRBY_LIVES := 5 }

/-- A state with a life grant pending and 255 lives. -/
def life_state_255 : State := { life_state_5 with KIRBY_LIVES := 255 }

/-- A state that holds no fragment yet. -/
def no_shard_state : State :=
  { AP_SHARD_BITFIELD := 0, AP_IN_FLAG := 0, AP_IN_ITEM_ID := 0, AP_IN_PLAYER := 0,
    AP_ITEM_RCVD_COUNTER := 0, AP_DEBUG_LAST_ITEM_ID := 0, AP_DEBUG_LAST_FROM := 0,
    AP_FRAME_COUNTER := 0, KIRBY_SHARD_FLAGS := 0, KIRBY_LIVES := 3 }

/-- A state with an identifier pending that no branch of the decoder knows. -/
def unknown_state : State :=
  { AP_SHARD_BITFIELD := 5, AP_IN_FLAG := 1, AP_IN_ITEM_ID := 3860010, AP_IN_PLAYER := 7,
    AP_ITEM_RCVD_COUNTER := 4294967295, AP_DEBUG_LAST_ITEM_ID := 0, AP_DEBUG_LAST_FROM := 0,
    AP_FRAME_COUNTER := 100, KIRBY_SHARD_FLAGS := 5, KIRBY_LIVES := 5 }

/-- A state with 5 lives and fragments 0 and 2, nothing pending. -/
def replay_state : State :=
  { AP_SHARD_BITFIELD := 5, AP_IN_FLAG := 0, AP_IN_ITEM_ID := 0, AP_IN_PLAYER := 0,
    AP_ITEM_RCVD_COUNTER := 0, AP_DEBUG_LAST_ITEM_ID := 0, AP_DEBUG_LAST_FROM := 0,
    AP_FRAME_COUNTER := 0, KIRBY_SHARD_FLAGS := 5, KIRBY_LIVES := 5 }

/-- Three rounds: a drained grant of fragment 3, an undrained write that names
fragment 1, a drained life grant. -/
def sample_rounds : List MailboxWrite :=
  [⟨1, 3860005, 7⟩, ⟨0, 3860003, 2⟩, ⟨1, 3860001, 1⟩]

/-- Two rounds that drain a message and one that does not. -/
def counter_rounds : List MailboxWrite :=
  [⟨1, 3860001, 7⟩, ⟨2, 3860005, 7⟩, ⟨1, 12, 3⟩]

/-- A state whose two counters are one and two ticks from wrapping. -/
def wrapping_state : State :=
  { AP_SHARD_BITFIELD := 0, AP_IN_FLAG := 0, AP_IN_ITEM_ID := 0, AP_IN_PLAYER := 0,
    AP_ITEM_RCVD_COUNTER := 4294967295, AP_DEBUG_LAST_ITEM_ID := 0, AP_DEBUG_LAST_FROM := 0,
    AP_FRAME_COUNTER := 4294967294, KIRBY_SHARD_FLAGS := 0, KIRBY_LIVES := 3 }

/-- A state that agrees with `life_state_5` on `lives`, `shard_flags`,
`pending_flag` and `item_id`, and differs from it everywhere else. -/
def life_state_5_other : State :=
  { AP_SHARD_BITFIELD := 4294967040, AP_IN_FLAG := 1, AP_IN_ITEM_ID := 3860001,
    AP_IN_PLAYER := 99, AP_ITEM_RCVD_COUNTER := 4294967295, AP_DEBUG_LAST_ITEM_ID := 12,
    AP_DEBUG_LAST_FROM := 13, AP_FRAME_COUNTER := 4294967295, KIRBY_SHARD_FLAGS := 5,
    KIRBY_LIVES := 5 }

/-! ## Arithmetic of the register operations -/

theorem or_mod_two_pow (a b n : Nat) : (a ||| b) % 2 ^ n = a % 2 ^ n ||| b % 2 ^ n := by
  apply Nat.eq_of_testBit_eq
  intro i
  simp only [Nat.testBit_mod_two_pow, Nat.testBit_or]
  cases decide (i < n) <;> simp

theorem or_two_pow_lt (a k n : Nat) (ha : a < 2 ^ n) (hk : k < n) : a ||| 2 ^ k < 2 ^ n :=
  Nat.or_lt_two_pow ha (Nat.pow_lt_pow_right (by decide) hk)

/-- The mask the C code computes for the fragment item `BASE + 2 + k`. -/
theorem shard_mask_eq (k : Nat) (hk : k < 8) :
    ((1 <<< ((KIRBY_ITEM_ID_BASE_OFFSET + 2 + k + U32
        - (KIRBY_ITEM_ID_BASE_OFFSET + 2) % U32) % U32)) % U32) % U8 = 2 ^ k := by
  have hidx : (KIRBY_ITEM_ID_BASE_OFFSET + 2 + k + U32
        - (KIRBY_ITEM_ID_BASE_OFFSET + 2) % U32) % U32 = k := by
    simp only [KIRBY_ITEM_ID_BASE_OFFSET, U32]
    omega
  rw [hidx, Nat.one_shiftLeft]
  have h8 : 2 ^ k < 2 ^ 8 := Nat.pow_lt_pow_right (by decide) hk
  have h32 : 2 ^ k < 2 ^ 32 := Nat.pow_lt_pow_right (by decide) (by omega)
  simp only [U32, U8]
  rw [Nat.mod_eq_of_lt h32, Nat.mod_eq_of_lt h8]

/-! ## The three branches of `ap_apply_item` -/

theorem ap_apply_item_life (s : State) :
    ap_apply_item (KIRBY_ITEM_ID_BASE_OFFSET + 1) s =
      if s.KIRBY_LIVES < 255 then { s with KIRBY_LIVES := s.KIRBY_LIVES + 1 } else s := by
  unfold ap_apply_item
  have h1 : KIRBY_ITEM_ID_BASE_OFFSET + 1 = (KIRBY_ITEM_ID_BASE_OFFSET + 1) % U32 := by
    simp [KIRBY_ITEM_ID_BASE_OFFSET, U32]
  rw [if_pos h1]
  by_cases hl : s.KIRBY_LIVES < 255
  · have h2 : ((s.KIRBY_LIVES + 1) % U32) % U8 = s.KIRBY_LIVES + 1 := by
      simp only [U32, U8]; omega
    simp only [hl, if_true, h2]
  · simp only [hl, if_false]

theorem ap_apply_item_shard (s : State) (k : Nat) (hk : k < 8) :
    ap_apply_item (KIRBY_ITEM_ID_BASE_OFFSET + 2 + k) s =
      { s with AP_SHARD_BITFIELD := (s.AP_SHARD_BITFIELD ||| 2 ^ k) % U32,
               KIRBY_SHARD_FLAGS := (s.KIRBY_SHARD_FLAGS ||| 2 ^ k) % U8 } := by
  unfold ap_apply_item
  have h1 : ¬ KIRBY_ITEM_ID_BASE_OFFSET + 2 + k = (KIRBY_ITEM_ID_BASE_OFFSET + 1) % U32 := by
    simp only [KIRBY_ITEM_ID_BASE_OFFSET, U32]; omega
  have h2 : (KIRBY_ITEM_ID_BASE_OFFSET + 2) % U32 ≤ KIRBY_ITEM_ID_BASE_OFFSET + 2 + k ∧
      KIRBY_ITEM_ID_BASE_OFFSET + 2 + k ≤ (KIRBY_ITEM_ID_BASE_OFFSET + 9) % U32 := by
    simp only [KIRBY_ITEM_ID_BASE_OFFSET, U32]; omega
  rw [if_neg h1, if_pos h2]
  simp only [shard_mask_eq k hk]

theorem ap_apply_item_other (s : State) (id : Nat)
    (h : id < KIRBY_ITEM_ID_BASE_OFFSET + 1 ∨ KIRBY_ITEM_ID_BASE_OFFSET + 9 < id) :
    ap_apply_item id s = s := by
  unfold ap_apply_item
  have h1 : ¬ id = (KIRBY_ITEM_ID_BASE_OFFSET + 1) % U32 := by
    simp only [KIRBY_ITEM_ID_BASE_OFFSET, U32] at h ⊢; omega
  have h2 : ¬ ((KIRBY_ITEM_ID_BASE_OFFSET + 2) % U32 ≤ id ∧
      id ≤ (KIRBY_ITEM_ID_BASE_OFFSET + 9) % U32) := by
    simp only [KIRBY_ITEM_ID_BASE_OFFSET, U32] at h ⊢; omega
  rw [if_neg h1, if_neg h2]

/-- Every identifier falls in exactly one branch of the decoder. -/
theorem item_cases (id : Nat) :
    id = KIRBY_ITEM_ID_BASE_OFFSET + 1 ∨
    (∃ k, k < 8 ∧ id = KIRBY_ITEM_ID_BASE_OFFSET + 2 + k) ∨
    (id < KIRBY_ITEM_ID_BASE_OFFSET + 1 ∨ KIRBY_ITEM_ID_BASE_OFFSET + 9 < id) := by
  by_cases h1 : id = KIRBY_ITEM_ID_BASE_OFFSET + 1
  · exact Or.inl h1
  · by_cases h2 : KIRBY_ITEM_ID_BASE_OFFSET + 2 ≤ id ∧ id ≤ KIRBY_ITEM_ID_BASE_OFFSET + 9
    · refine Or.inr (Or.inl ⟨id - (KIRBY_ITEM_ID_BASE_OFFSET + 2), ?_, ?_⟩) <;> omega
    · exact Or.inr (Or.inr (by omega))

/-! ## The two branches of `ap_poll_mailbox_c` -/

theorem poll_idle (s : State) (h : s.AP_IN_FLAG ≠ 1) :
    ap_poll_mailbox_c s = { s with AP_FRAME_COUNTER := (s.AP_FRAME_COUNTER + 1) % U32 } := by
  unfold ap_poll_mailbox_c
  simp only [h, ne_eq, not_false_eq_true, if_true]

theorem poll_drain (s : State) (h : s.AP_IN_FLAG = 1) :
    ap_poll_mailbox_c s =
      { ap_apply_item s.AP_IN_ITEM_ID
          { s with AP_FRAME_COUNTER := (s.AP_FRAME_COUNTER + 1) % U32,
                   AP_ITEM_RCVD_COUNTER := (s.AP_ITEM_RCVD_COUNTER + 1) % U32,
                   AP_DEBUG_LAST_ITEM_ID := s.AP_IN_ITEM_ID,
                   AP_DEBUG_LAST_FROM := s.AP_IN_PLAYER }
        with AP_IN_FLAG := 0 } := by
  unfold ap_poll_mailbox_c
  simp only [h, ne_eq, not_true_eq_false, if_false]

/-- The applier leaves the seven registers it never names as they are. -/
theorem ap_apply_item_frame (id : Nat) (s : State) :
    (ap_apply_item id s).AP_IN_FLAG = s.AP_IN_FLAG ∧
    (ap_apply_item id s).AP_IN_ITEM_ID = s.AP_IN_ITEM_ID ∧
    (ap_apply_item id s).AP_IN_PLAYER = s.AP_IN_PLAYER ∧
    (ap_apply_item id s).AP_ITEM_RCVD_COUNTER = s.AP_ITEM_RCVD_COUNTER ∧
    (ap_apply_item id s).AP_DEBUG_LAST_ITEM_ID = s.AP_DEBUG_LAST_ITEM_ID ∧
    (ap_apply_item id s).AP_DEBUG_LAST_FROM = s.AP_DEBUG_LAST_FROM ∧
    (ap_apply_item id s).AP_FRAME_COUNTER = s.AP_FRAME_COUNTER := by
  unfold ap_apply_item
  dsimp only
  split_ifs <;> simp

/-- What the applier stores in the three registers it does name is a function
of the identifier and of those three registers alone. -/
theorem ap_apply_item_congr (id : Nat) (s t : State)
    (hl : s.KIRBY_LIVES = t.KIRBY_LIVES) (hf : s.KIRBY_SHARD_FLAGS = t.KIRBY_SHARD_FLAGS)
    (hm : s.AP_SHARD_BITFIELD = t.AP_SHARD_BITFIELD) :
    (ap_apply_item id s).KIRBY_LIVES = (ap_apply_item id t).KIRBY_LIVES ∧
    (ap_apply_item id s).KIRBY_SHARD_FLAGS = (ap_apply_item id t).KIRBY_SHARD_FLAGS ∧
    (ap_apply_item id s).AP_SHARD_BITFIELD = (ap_apply_item id t).AP_SHARD_BITFIELD := by
  unfold ap_apply_item
  simp only [hl, hf, hm]
  split_ifs <;> first | exact ⟨hl, hf, hm⟩ | simp

/-! ## Game registers after a poll and after a round -/

/-- The three registers the applier names, after a poll: those of the applier
run on the pending identifier when the flag is 1, the old ones otherwise. -/
theorem poll_game (s : State) :
    (ap_poll_mailbox_c s).KIRBY_LIVES
      = (if s.AP_IN_FLAG = 1 then ap_apply_item s.AP_IN_ITEM_ID s else s).KIRBY_LIVES ∧
    (ap_poll_mailbox_c s).KIRBY_SHARD_FLAGS
      = (if s.AP_IN_FLAG = 1 then ap_apply_item s.AP_IN_ITEM_ID s else s).KIRBY_SHARD_FLAGS ∧
    (ap_poll_mailbox_c s).AP_SHARD_BITFIELD
      = (if s.AP_IN_FLAG = 1 then ap_apply_item s.AP_IN_ITEM_ID s else s).AP_SHARD_BITFIELD := by
  by_cases h : s.AP_IN_FLAG = 1
  · rw [poll_drain s h, if_pos h]
    exact ap_apply_item_congr s.AP_IN_ITEM_ID _ s rfl rfl rfl
  · rw [poll_idle s h, if_neg h]
    exact ⟨rfl, rfl, rfl⟩

theorem round_game (s : State) (w : MailboxWrite) :
    (round s w).KIRBY_LIVES
      = (if w.flag = 1 then ap_apply_item w.item s else s).KIRBY_LIVES ∧
    (round s w).KIRBY_SHARD_FLAGS
      = (if w.flag = 1 then ap_apply_item w.item s else s).KIRBY_SHARD_FLAGS ∧
    (round s w).AP_SHARD_BITFIELD
      = (if w.flag = 1 then ap_apply_item w.item s else s).AP_SHARD_BITFIELD := by
  obtain ⟨h1, h2, h3⟩ := poll_game (external_write w s)
  unfold round
  rw [h1, h2, h3]
  simp only [external_write]
  by_cases h : w.flag = 1
  · simp only [h, if_true]
    exact ap_apply_item_congr w.item _ s rfl rfl rfl
  · simp [h]

theorem or_mod_idem (a m n : Nat) :
    ((a ||| m) % 2 ^ n ||| m) % 2 ^ n = (a ||| m) % 2 ^ n := by
  apply Nat.eq_of_testBit_eq
  intro i
  simp only [Nat.testBit_mod_two_pow, Nat.testBit_or]
  cases decide (i < n) <;> cases a.testBit i <;> cases m.testBit i <;> rfl

/-- Applying a fragment grant a second time changes nothing. -/
theorem ap_apply_item_shard_twice (s : State) (k : Nat) (hk : k < 8) :
    ap_apply_item (KIRBY_ITEM_ID_BASE_OFFSET + 2 + k)
        (ap_apply_item (KIRBY_ITEM_ID_BASE_OFFSET + 2 + k) s)
      = ap_apply_item (KIRBY_ITEM_ID_BASE_OFFSET + 2 + k) s := by
  rw [ap_apply_item_shard s k hk, ap_apply_item_shard _ k hk]
  simp only [U32, U8, or_mod_idem]

/-- The applier on the life grant, run twice. -/
theorem ap_apply_item_life_twice (s : State) :
    ap_apply_item (KIRBY_ITEM_ID_BASE_OFFSET + 1)
        (ap_apply_item (KIRBY_ITEM_ID_BASE_OFFSET + 1) s)
      = if s.KIRBY_LIVES < 254 then { s with KIRBY_LIVES := s.KIRBY_LIVES + 2 }
        else ap_apply_item (KIRBY_ITEM_ID_BASE_OFFSET + 1) s := by
  rw [ap_apply_item_life s, ap_apply_item_life]
  by_cases h1 : s.KIRBY_LIVES < 254
  · have h2 : s.KIRBY_LIVES < 255 := by omega
    have h3 : s.KIRBY_LIVES + 1 < 255 := by omega
    simp only [h1, h2, h3, if_true]
  · by_cases h2 : s.KIRBY_LIVES < 255
    · have h3 : ¬ s.KIRBY_LIVES + 1 < 255 := by omega
      simp only [h1, h2, h3, if_true, if_false]
    · simp only [h1, h2, if_false]

/-! ## Bits of the fragment registers -/

theorem testBit_or_two_pow_mod (a j n i : Nat) :
    ((a ||| 2 ^ j) % 2 ^ n).testBit i = (decide (i < n) && (a.testBit i || decide (j = i))) := by
  rw [Nat.testBit_mod_two_pow, Nat.testBit_or, Nat.testBit_two_pow]

theorem ap_apply_item_flags_bit (id : Nat) (s : State) (k : Nat) (hk : k < 8) :
    (ap_apply_item id s).KIRBY_SHARD_FLAGS.testBit k = true ↔
      s.KIRBY_SHARD_FLAGS.testBit k = true ∨ id = KIRBY_ITEM_ID_BASE_OFFSET + 2 + k := by
  rcases item_cases id with rfl | ⟨j, hj, rfl⟩ | h
  · rw [ap_apply_item_life]
    have hne : ¬ KIRBY_ITEM_ID_BASE_OFFSET + 1 = KIRBY_ITEM_ID_BASE_OFFSET + 2 + k := by omega
    split_ifs <;> simp [hne]
  · rw [ap_apply_item_shard s j hj]
    have hjk : KIRBY_ITEM_ID_BASE_OFFSET + 2 + j = KIRBY_ITEM_ID_BASE_OFFSET + 2 + k ↔ j = k := by
      omega
    simp only [U8, testBit_or_two_pow_mod]
    simp [hk, hjk]
  · rw [ap_apply_item_other s id h]
    have hne : ¬ id = KIRBY_ITEM_ID_BASE_OFFSET + 2 + k := by omega
    simp [hne]

theorem ap_apply_item_mirror_bit (id : Nat) (s : State) (k : Nat) (hk : k < 8) :
    (ap_apply_item id s).AP_SHARD_BITFIELD.testBit k = true ↔
      s.AP_SHARD_BITFIELD.testBit k = true ∨ id = KIRBY_ITEM_ID_BASE_OFFSET + 2 + k := by
  rcases item_cases id with rfl | ⟨j, hj, rfl⟩ | h
  · rw [ap_apply_item_life]
    have hne : ¬ KIRBY_ITEM_ID_BASE_OFFSET + 1 = KIRBY_ITEM_ID_BASE_OFFSET + 2 + k := by omega
    split_ifs <;> simp [hne]
  · rw [ap_apply_item_shard s j hj]
    have hjk : KIRBY_ITEM_ID_BASE_OFFSET + 2 + j = KIRBY_ITEM_ID_BASE_OFFSET + 2 + k ↔ j = k := by
      omega
    have hk32 : k < 32 := by omega
    simp only [U32, testBit_or_two_pow_mod]
    simp [hk32, hjk]
  · rw [ap_apply_item_other s id h]
    have hne : ¬ id = KIRBY_ITEM_ID_BASE_OFFSET + 2 + k := by omega
    simp [hne]

/-- Bit `k` of both fragment registers after one round. -/
theorem round_bits (s : State) (w : MailboxWrite) (k : Nat) (hk : k < 8) :
    ((round s w).KIRBY_SHARD_FLAGS.testBit k = true ↔
      s.KIRBY_SHARD_FLAGS.testBit k = true ∨
        (w.flag = 1 ∧ w.item = KIRBY_ITEM_ID_BASE_OFFSET + 2 + k)) ∧
    ((round s w).AP_SHARD_BITFIELD.testBit k = true ↔
      s.AP_SHARD_BITFIELD.testBit k = true ∨
        (w.flag = 1 ∧ w.item = KIRBY_ITEM_ID_BASE_OFFSET + 2 + k)) := by
  obtain ⟨-, h2, h3⟩ := round_game s w
  rw [h2, h3]
  by_cases h : w.flag = 1
  · simp only [h, if_true, true_and]
    exact ⟨ap_apply_item_flags_bit w.item s k hk, ap_apply_item_mirror_bit w.item s k hk⟩
  · simp [h]

theorem mem_drained (w : MailboxWrite) (ws : List MailboxWrite) :
    w ∈ drained ws ↔ w ∈ ws ∧ w.flag = 1 := by
  simp [drained]

/-- Bit `k` of both fragment registers after a sequence of rounds. -/
theorem run_rounds_bits (ws : List MailboxWrite) (s : State) (k : Nat) (hk : k < 8) :
    ((run_rounds s ws).KIRBY_SHARD_FLAGS.testBit k = true ↔
      s.KIRBY_SHARD_FLAGS.testBit k = true ∨
        ∃ w, w ∈ drained ws ∧ w.item = KIRBY_ITEM_ID_BASE_OFFSET + 2 + k) ∧
    ((run_rounds s ws).AP_SHARD_BITFIELD.testBit k = true ↔
      s.AP_SHARD_BITFIELD.testBit k = true ∨
        ∃ w, w ∈ drained ws ∧ w.item = KIRBY_ITEM_ID_BASE_OFFSET + 2 + k) := by
  induction ws generalizing s with
  | nil => simp [run_rounds, drained]
  | cons w ws ih =>
    have hrun : run_rounds s (w :: ws) = run_rounds (round s w) ws := rfl
    obtain ⟨i1, i2⟩ := ih (round s w)
    obtain ⟨r1, r2⟩ := round_bits s w k hk
    have hex : (∃ v, v ∈ drained (w :: ws) ∧ v.item = KIRBY_ITEM_ID_BASE_OFFSET + 2 + k) ↔
        (w.flag = 1 ∧ w.item = KIRBY_ITEM_ID_BASE_OFFSET + 2 + k) ∨
          ∃ v, v ∈ drained ws ∧ v.item = KIRBY_ITEM_ID_BASE_OFFSET + 2 + k := by
      constructor
      · rintro ⟨v, hv, hvi⟩
        rw [mem_drained] at hv
        rcases List.mem_cons.mp hv.1 with rfl | hmem
        · exact Or.inl ⟨hv.2, hvi⟩
        · exact Or.inr ⟨v, (mem_drained v ws).mpr ⟨hmem, hv.2⟩, hvi⟩
      · rintro (⟨hw, hwi⟩ | ⟨v, hv, hvi⟩)
        · exact ⟨w, (mem_drained w _).mpr ⟨List.mem_cons_self w ws, hw⟩, hwi⟩
        · rw [mem_drained] at hv
          exact ⟨v, (mem_drained v _).mpr ⟨List.mem_cons_of_mem w hv.1, hv.2⟩, hvi⟩
    rw [hrun, i1, i2, r1, r2, hex]
    exact ⟨or_assoc, or_assoc⟩

theorem and_255 (x : Nat) : x &&& 255 = x % 2 ^ 8 :=
  Nat.and_pow_two_sub_one_eq_mod x 8

theorem mirror_low_byte (m k : Nat) :
    ((m ||| 2 ^ k) % 2 ^ 32) &&& 255 = ((m &&& 255) ||| 2 ^ k) % 2 ^ 8 := by
  rw [and_255, and_255]
  apply Nat.eq_of_testBit_eq
  intro i
  simp only [Nat.testBit_mod_two_pow, Nat.testBit_or]
  by_cases h8 : i < 8
  · have h32 : i < 32 := by omega
    simp [h8, h32]
  · simp [h8]

/-- What the applier leaves in `KIRBY_LIVES`. -/
theorem ap_apply_item_lives (id : Nat) (s : State) :
    (ap_apply_item id s).KIRBY_LIVES =
      if id = KIRBY_ITEM_ID_BASE_OFFSET + 1 ∧ s.KIRBY_LIVES < 255 then s.KIRBY_LIVES + 1
      else s.KIRBY_LIVES := by
  rcases item_cases id with rfl | ⟨j, hj, rfl⟩ | h
  · rw [ap_apply_item_life]
    by_cases hl : s.KIRBY_LIVES < 255 <;> simp [hl]
  · rw [ap_apply_item_shard s j hj]
    have hne : ¬ KIRBY_ITEM_ID_BASE_OFFSET + 2 + j = KIRBY_ITEM_ID_BASE_OFFSET + 1 := by omega
    simp [hne]
  · rw [ap_apply_item_other s id h]
    have hne : ¬ id = KIRBY_ITEM_ID_BASE_OFFSET + 1 := by omega
    simp [hne]

/-- The applier only ever adds bits to the fragment registers, and none above
bit 7. -/
theorem ap_apply_item_bits (id : Nat) (s : State)
    (hf : s.KIRBY_SHARD_FLAGS < 2 ^ 8) (hm : s.AP_SHARD_BITFIELD < 2 ^ 32) :
    (∀ j, s.KIRBY_SHARD_FLAGS.testBit j = true →
      (ap_apply_item id s).KIRBY_SHARD_FLAGS.testBit j = true) ∧
    (∀ j, s.AP_SHARD_BITFIELD.testBit j = true →
      (ap_apply_item id s).AP_SHARD_BITFIELD.testBit j = true) ∧
    (∀ j, 8 ≤ j →
      (ap_apply_item id s).AP_SHARD_BITFIELD.testBit j = s.AP_SHARD_BITFIELD.testBit j) := by
  rcases item_cases id with rfl | ⟨k, hk, rfl⟩ | h
  · rw [ap_apply_item_life]
    split_ifs
    · exact ⟨fun _ h => h, fun _ h => h, fun _ _ => rfl⟩
    · exact ⟨fun _ h => h, fun _ h => h, fun _ _ => rfl⟩
  · have e8 : (s.KIRBY_SHARD_FLAGS ||| 2 ^ k) % 2 ^ 8 = s.KIRBY_SHARD_FLAGS ||| 2 ^ k :=
      Nat.mod_eq_of_lt (or_two_pow_lt _ k 8 hf hk)
    have e32 : (s.AP_SHARD_BITFIELD ||| 2 ^ k) % 2 ^ 32 = s.AP_SHARD_BITFIELD ||| 2 ^ k :=
      Nat.mod_eq_of_lt (or_two_pow_lt _ k 32 hm (by omega))
    rw [ap_apply_item_shard s k hk]
    simp only [U32, U8, e8, e32, Nat.testBit_or, Nat.testBit_two_pow]
    refine ⟨fun j h => by simp [h], fun j h => by simp [h], fun j hj => ?_⟩
    have hkj : ¬ k = j := by omega
    simp [hkj]
  · rw [ap_apply_item_other s id h]
    exact ⟨fun _ h => h, fun _ h => h, fun _ _ => rfl⟩

/-! ## Register values stay in range -/

theorem ap_apply_item_wf (id : Nat) (s : State) (h : s.WF) : (ap_apply_item id s).WF := by
  obtain ⟨h1, h2, h3, h4, h5, h6, h7, h8, h9, h10⟩ := h
  rcases item_cases id with rfl | ⟨k, hk, rfl⟩ | ho
  · rw [ap_apply_item_life]
    split_ifs with hl
    · exact ⟨h1, h2, h3, h4, h5, h6, h7, h8, h9, by simp only [U8]; omega⟩
    · exact ⟨h1, h2, h3, h4, h5, h6, h7, h8, h9, h10⟩
  · rw [ap_apply_item_shard s k hk]
    exact ⟨Nat.mod_lt _ (by decide), h2, h3, h4, h5, h6, h7, h8, Nat.mod_lt _ (by decide), h10⟩
  · rw [ap_apply_item_other s id ho]
    exact ⟨h1, h2, h3, h4, h5, h6, h7, h8, h9, h10⟩

/-- A poll of a state of register values is a state of register values. -/
theorem ap_poll_mailbox_c_wf (s : State) (h : s.WF) : (ap_poll_mailbox_c s).WF := by
  obtain ⟨h1, h2, h3, h4, h5, h6, h7, h8, h9, h10⟩ := h
  by_cases hfl : s.AP_IN_FLAG = 1
  · rw [poll_drain s hfl]
    obtain ⟨g1, -, g3, g4, g5, g6, g7, g8, g9, g10⟩ := ap_apply_item_wf s.AP_IN_ITEM_ID
      { s with AP_FRAME_COUNTER := (s.AP_FRAME_COUNTER + 1) % U32,
               AP_ITEM_RCVD_COUNTER := (s.AP_ITEM_RCVD_COUNTER + 1) % U32,
               AP_DEBUG_LAST_ITEM_ID := s.AP_IN_ITEM_ID,
               AP_DEBUG_LAST_FROM := s.AP_IN_PLAYER }
      ⟨h1, h2, h3, h4, Nat.mod_lt _ (by decide), h3, h4, Nat.mod_lt _ (by decide), h9, h10⟩
    exact ⟨g1, (by decide : (0 : Nat) < U32), g3, g4, g5, g6, g7, g8, g9, g10⟩
  · rw [poll_idle s hfl]
    exact ⟨h1, h2, h3, h4, h5, h6, h7, Nat.mod_lt _ (by decide), h9, h10⟩

/-! ## Counters and the flag -/

/-- The two counters after one round. -/
theorem round_counters (s : State) (w : MailboxWrite) :
    (round s w).AP_FRAME_COUNTER = (s.AP_FRAME_COUNTER + 1) % U32 ∧
    (round s w).AP_ITEM_RCVD_COUNTER
      = if w.flag = 1 then (s.AP_ITEM_RCVD_COUNTER + 1) % U32 else s.AP_ITEM_RCVD_COUNTER := by
  unfold round
  by_cases h : w.flag = 1
  · have hfl : (external_write w s).AP_IN_FLAG = 1 := h
    rw [poll_drain _ hfl, if_pos h]
    obtain ⟨-, -, -, f4, -, -, f7⟩ := ap_apply_item_frame (external_write w s).AP_IN_ITEM_ID
      { external_write w s with
          AP_FRAME_COUNTER := ((external_write w s).AP_FRAME_COUNTER + 1) % U32,
          AP_ITEM_RCVD_COUNTER := ((external_write w s).AP_ITEM_RCVD_COUNTER + 1) % U32,
          AP_DEBUG_LAST_ITEM_ID := (external_write w s).AP_IN_ITEM_ID,
          AP_DEBUG_LAST_FROM := (external_write w s).AP_IN_PLAYER }
    exact ⟨f7, f4⟩
  · have hfl : (external_write w s).AP_IN_FLAG ≠ 1 := h
    rw [poll_idle _ hfl, if_neg h]
    exact ⟨rfl, rfl⟩

theorem drained_cons (w : MailboxWrite) (ws : List MailboxWrite) :
    (drained (w :: ws)).length
      = if w.flag = 1 then (drained ws).length + 1 else (drained ws).length := by
  unfold drained
  by_cases h : w.flag = 1
  · simp [h]
  · simp [h]

/-- A second poll right after a poll finds nothing pending. -/
theorem poll_flag_ne_one (s : State) : (ap_poll_mailbox_c s).AP_IN_FLAG ≠ 1 := by
  by_cases h : s.AP_IN_FLAG = 1
  · rw [poll_drain s h]
    exact Nat.zero_ne_one
  · rw [poll_idle s h]
    exact h

/-- The mailbox registers after a poll that drains a message. -/
theorem poll_drain_fields (s : State) (h : s.AP_IN_FLAG = 1) :
    (ap_poll_mailbox_c s).AP_FRAME_COUNTER = (s.AP_FRAME_COUNTER + 1) % U32 ∧
    (ap_poll_mailbox_c s).AP_ITEM_RCVD_COUNTER = (s.AP_ITEM_RCVD_COUNTER + 1) % U32 ∧
    (ap_poll_mailbox_c s).AP_DEBUG_LAST_ITEM_ID = s.AP_IN_ITEM_ID ∧
    (ap_poll_mailbox_c s).AP_DEBUG_LAST_FROM = s.AP_IN_PLAYER ∧
    (ap_poll_mailbox_c s).AP_IN_FLAG = 0 ∧
    (ap_poll_mailbox_c s).AP_IN_ITEM_ID = s.AP_IN_ITEM_ID ∧
    (ap_poll_mailbox_c s).AP_IN_PLAYER = s.AP_IN_PLAYER := by
  rw [poll_drain s h]
  obtain ⟨-, f2, f3, f4, f5, f6, f7⟩ := ap_apply_item_frame s.AP_IN_ITEM_ID
    { s with AP_FRAME_COUNTER := (s.AP_FRAME_COUNTER + 1) % U32,
             AP_ITEM_RCVD_COUNTER := (s.AP_ITEM_RCVD_COUNTER + 1) % U32,
             AP_DEBUG_LAST_ITEM_ID := s.AP_IN_ITEM_ID,
             AP_DEBUG_LAST_FROM := s.AP_IN_PLAYER }
  exact ⟨f7, f4, f5, f6, rfl, f2, f3⟩

/-- Every poll ticks the frame counter. -/
theorem poll_frame_counter (s : State) :
    (ap_poll_mailbox_c s).AP_FRAME_COUNTER = (s.AP_FRAME_COUNTER + 1) % U32 := by
  by_cases h : s.AP_IN_FLAG = 1
  · exact (poll_drain_fields s h).1
  · rw [poll_idle s h]

/-! ## The stores of a poll, in order -/

theorem replay_append (s : State) (l1 l2 : List Store) :
    replay s (l1 ++ l2) = replay (replay s l1) l2 := by
  unfold replay
  rw [List.foldl_append]

/-- The applier never stores to `AP_IN_FLAG`. -/
theorem ap_apply_item_stores_reg (id : Nat) (s : State) :
    ∀ w ∈ ap_apply_item_stores id s, w.reg ≠ Reg.AP_IN_FLAG := by
  intro w hw
  unfold ap_apply_item_stores at hw
  dsimp only at hw
  split_ifs at hw
  · rw [List.mem_singleton] at hw
    rw [hw]
    exact Reg.noConfusion
  · exact absurd hw (List.not_mem_nil w)
  · rcases List.mem_cons.mp hw with h1 | h2
    · rw [h1]
      exact Reg.noConfusion
    · rw [List.mem_singleton] at h2
      rw [h2]
      exact Reg.noConfusion
  · exact absurd hw (List.not_mem_nil w)

/-- Replaying the stores of the applier gives the state the applier returns. -/
theorem replay_ap_apply_item_stores (id : Nat) (s : State) :
    replay s (ap_apply_item_stores id s) = ap_apply_item id s := by
  unfold ap_apply_item_stores ap_apply_item
  dsimp only
  split_ifs <;> rfl

/-- The stores of a poll that finds nothing pending. -/
theorem ap_poll_mailbox_c_stores_idle (s : State) (h : s.AP_IN_FLAG ≠ 1) :
    ap_poll_mailbox_c_stores s = [⟨Reg.AP_FRAME_COUNTER, (s.AP_FRAME_COUNTER + 1) % U32⟩] := by
  unfold ap_poll_mailbox_c_stores
  have h1 : (s.store ⟨Reg.AP_FRAME_COUNTER, (s.AP_FRAME_COUNTER + 1) % U32⟩).AP_IN_FLAG ≠ 1 := h
  dsimp only
  rw [if_pos h1]

/-- The stores of a poll that drains a message. -/
theorem ap_poll_mailbox_c_stores_drain (s : State) (h : s.AP_IN_FLAG = 1) :
    ap_poll_mailbox_c_stores s =
      ([⟨Reg.AP_FRAME_COUNTER, (s.AP_FRAME_COUNTER + 1) % U32⟩,
        ⟨Reg.AP_ITEM_RCVD_COUNTER, (s.AP_ITEM_RCVD_COUNTER + 1) % U32⟩,
        ⟨Reg.AP_DEBUG_LAST_ITEM_ID, s.AP_IN_ITEM_ID⟩,
        ⟨Reg.AP_DEBUG_LAST_FROM, s.AP_IN_PLAYER⟩] ++
        ap_apply_item_stores s.AP_IN_ITEM_ID
          { s with AP_FRAME_COUNTER := (s.AP_FRAME_COUNTER + 1) % U32,
                   AP_ITEM_RCVD_COUNTER := (s.AP_ITEM_RCVD_COUNTER + 1) % U32,
                   AP_DEBUG_LAST_ITEM_ID := s.AP_IN_ITEM_ID,
                   AP_DEBUG_LAST_FROM := s.AP_IN_PLAYER }) ++
        [⟨Reg.AP_IN_FLAG, 0⟩] := by
  unfold ap_poll_mailbox_c_stores
  have h1 : ¬ (s.store ⟨Reg.AP_FRAME_COUNTER, (s.AP_FRAME_COUNTER + 1) % U32⟩).AP_IN_FLAG ≠ 1 :=
    fun hne => hne h
  dsimp only
  rw [if_neg h1]
  rfl

/-- Replaying the stores of a poll gives the state the poll returns. -/
theorem replay_ap_poll_mailbox_c_stores (s : State) :
    replay s (ap_poll_mailbox_c_stores s) = ap_poll_mailbox_c s := by
  by_cases h : s.AP_IN_FLAG = 1
  · rw [ap_poll_mailbox_c_stores_drain s h, poll_drain s h, replay_append, replay_append]
    have h4 : replay s
        [⟨Reg.AP_FRAME_COUNTER, (s.AP_FRAME_COUNTER + 1) % U32⟩,
         ⟨Reg.AP_ITEM_RCVD_COUNTER, (s.AP_ITEM_RCVD_COUNTER + 1) % U32⟩,
         ⟨Reg.AP_DEBUG_LAST_ITEM_ID, s.AP_IN_ITEM_ID⟩,
         ⟨Reg.AP_DEBUG_LAST_FROM, s.AP_IN_PLAYER⟩]
        = { s with AP_FRAME_COUNTER := (s.AP_FRAME_COUNTER + 1) % U32,
                   AP_ITEM_RCVD_COUNTER := (s.AP_ITEM_RCVD_COUNTER + 1) % U32,
                   AP_DEBUG_LAST_ITEM_ID := s.AP_IN_ITEM_ID,
                   AP_DEBUG_LAST_FROM := s.AP_IN_PLAYER } := rfl
    rw [h4, replay_ap_apply_item_stores]
    rfl
  · rw [ap_poll_mailbox_c_stores_idle s h, poll_idle s h]
    rfl

/-- Stores that do not target `AP_IN_FLAG` leave it as it is. -/
theorem replay_keeps_flag (ws : List Store) (s : State)
    (h : ∀ w ∈ ws, w.reg ≠ Reg.AP_IN_FLAG) : (replay s ws).AP_IN_FLAG = s.AP_IN_FLAG := by
  induction ws generalizing s with
  | nil => rfl
  | cons w ws ih =>
    have hstep : replay s (w :: ws) = replay (s.store w) ws := rfl
    have hw : (s.store w).AP_IN_FLAG = s.AP_IN_FLAG := by
      have hne := h w (List.mem_cons_self w ws)
      unfold State.store
      split <;> first | rfl | exact absurd (by assumption) hne
    rw [hstep, ih (s.store w) (fun v hv => h v (List.mem_cons_of_mem w hv)), hw]

/-! ## Order of deliveries, and what each register depends on -/

theorem or_or_mod_comm (a x y n : Nat) :
    ((a ||| x) % 2 ^ n ||| y) % 2 ^ n = ((a ||| y) % 2 ^ n ||| x) % 2 ^ n := by
  apply Nat.eq_of_testBit_eq
  intro i
  simp only [Nat.testBit_mod_two_pow, Nat.testBit_or]
  cases decide (i < n) <;> cases a.testBit i <;> cases x.testBit i <;> cases y.testBit i <;> rfl

/-- Two applications of the applier commute. -/
theorem ap_apply_item_comm (a b : Nat) (s : State) :
    ap_apply_item b (ap_apply_item a s) = ap_apply_item a (ap_apply_item b s) := by
  rcases item_cases a with rfl | ⟨j, hj, rfl⟩ | ha
  · rcases item_cases b with rfl | ⟨k, hk, rfl⟩ | hb
    · rfl
    · rw [ap_apply_item_shard _ k hk, ap_apply_item_shard _ k hk, ap_apply_item_life,
        ap_apply_item_life]
      by_cases hl : s.KIRBY_LIVES < 255
      · simp only [hl, if_true]
      · simp only [hl, if_false]
    · rw [ap_apply_item_other _ b hb, ap_apply_item_other _ b hb]
  · rcases item_cases b with rfl | ⟨k, hk, rfl⟩ | hb
    · rw [ap_apply_item_shard _ j hj, ap_apply_item_shard _ j hj, ap_apply_item_life,
        ap_apply_item_life]
      by_cases hl : s.KIRBY_LIVES < 255
      · simp only [hl, if_true]
      · simp only [hl, if_false]
    · rw [ap_apply_item_shard _ j hj, ap_apply_item_shard _ k hk, ap_apply_item_shard _ j hj,
        ap_apply_item_shard _ k hk]
      simp only [U32, U8, or_or_mod_comm _ (2 ^ j) (2 ^ k)]
    · rw [ap_apply_item_other _ b hb, ap_apply_item_other _ b hb]
  · rw [ap_apply_item_other _ a ha, ap_apply_item_other _ a ha]

/-- What the applier leaves in `KIRBY_SHARD_FLAGS` is a function of the
identifier and of the old `KIRBY_SHARD_FLAGS`. -/
theorem ap_apply_item_flags_congr (id : Nat) (s t : State)
    (hf : s.KIRBY_SHARD_FLAGS = t.KIRBY_SHARD_FLAGS) :
    (ap_apply_item id s).KIRBY_SHARD_FLAGS = (ap_apply_item id t).KIRBY_SHARD_FLAGS := by
  rcases item_cases id with rfl | ⟨k, hk, rfl⟩ | h
  · rw [ap_apply_item_life, ap_apply_item_life]
    split_ifs <;> exact hf
  · rw [ap_apply_item_shard s k hk, ap_apply_item_shard t k hk]
    show (s.KIRBY_SHARD_FLAGS ||| 2 ^ k) % U8 = (t.KIRBY_SHARD_FLAGS ||| 2 ^ k) % U8
    rw [hf]
  · rw [ap_apply_item_other s id h, ap_apply_item_other t id h]
    exact hf

/-! ## The fragment decoding -/

/-- The function `ap_apply_item` is `ap_apply_item_with` at the decoding of
lines 48 and 49. -/
theorem ap_apply_item_with_decode (id : Nat) (s : State) :
    ap_apply_item_with (fun i => mask (shard_index i)) id s = ap_apply_item id s :=
  rfl

theorem shard_index_eq (k : Nat) (hk : k < 8) :
    shard_index (KIRBY_ITEM_ID_BASE_OFFSET + 2 + k) = k := by
  simp only [shard_index, KIRBY_ITEM_ID_BASE_OFFSET, U32]
  omega

theorem mask_eq (k : Nat) (hk : k < 8) : mask k = 2 ^ k := by
  have h8 : 2 ^ k < 2 ^ 8 := Nat.pow_lt_pow_right (by decide) hk
  have h32 : 2 ^ k < 2 ^ 32 := Nat.pow_lt_pow_right (by decide) (by omega)
  simp only [mask, U32, U8]
  rw [Nat.one_shiftLeft, Nat.mod_eq_of_lt h32, Nat.mod_eq_of_lt h8]

/-! ## The claims -/

/-- C1: a poll that finds `pending_flag == 1` adds 1 to `frame_counter` and to
`received_counter` (mod 2^32), copies `item_id` and `from_player` into the debug
mirrors, clears `pending_flag`, keeps `item_id` and `from_player`, and leaves in
`lives`, `shard_flags` and `shard_mirror` what `ap_apply_item` of the old
`item_id` makes of their old values (in whatever state `t` they are held). -/
theorem poll_pending_effect (s : State) (h : s.AP_IN_FLAG = 1) :
    (ap_poll_mailbox_c s).AP_FRAME_COUNTER = (s.AP_FRAME_COUNTER + 1) % 2 ^ 32 ∧
    (ap_poll_mailbox_c s).AP_ITEM_RCVD_COUNTER = (s.AP_ITEM_RCVD_COUNTER + 1) % 2 ^ 32 ∧
    (ap_poll_mailbox_c s).AP_DEBUG_LAST_ITEM_ID = s.AP_IN_ITEM_ID ∧
    (ap_poll_mailbox_c s).AP_DEBUG_LAST_FROM = s.AP_IN_PLAYER ∧
    (ap_poll_mailbox_c s).AP_IN_FLAG = 0 ∧
    (ap_poll_mailbox_c s).AP_IN_ITEM_ID = s.AP_IN_ITEM_ID ∧
    (ap_poll_mailbox_c s).AP_IN_PLAYER = s.AP_IN_PLAYER ∧
    ∀ t : State, t.KIRBY_LIVES = s.KIRBY_LIVES →
      t.KIRBY_SHARD_FLAGS = s.KIRBY_SHARD_FLAGS →
      t.AP_SHARD_BITFIELD = s.AP_SHARD_BITFIELD →
      (ap_poll_mailbox_c s).KIRBY_LIVES = (ap_apply_item s.AP_IN_ITEM_ID t).KIRBY_LIVES ∧
      (ap_poll_mailbox_c s).KIRBY_SHARD_FLAGS
        = (ap_apply_item s.AP_IN_ITEM_ID t).KIRBY_SHARD_FLAGS ∧
      (ap_poll_mailbox_c s).AP_SHARD_BITFIELD
        = (ap_apply_item s.AP_IN_ITEM_ID t).AP_SHARD_BITFIELD := by
  rw [poll_drain s h]
  obtain ⟨-, f2, f3, f4, f5, f6, f7⟩ := ap_apply_item_frame s.AP_IN_ITEM_ID
    { s with AP_FRAME_COUNTER := (s.AP_FRAME_COUNTER + 1) % U32,
             AP_ITEM_RCVD_COUNTER := (s.AP_ITEM_RCVD_COUNTER + 1) % U32,
             AP_DEBUG_LAST_ITEM_ID := s.AP_IN_ITEM_ID,
             AP_DEBUG_LAST_FROM := s.AP_IN_PLAYER }
  refine ⟨f7, f4, f5, f6, rfl, f2, f3, ?_⟩
  intro t hl hf hm
  exact ap_apply_item_congr s.AP_IN_ITEM_ID _ t hl.symm hf.symm hm.symm

theorem poll_pending_effect_witness :
    pending_state.AP_IN_FLAG = 1 ∧
    ((ap_poll_mailbox_c pending_state).AP_FRAME_COUNTER
        = (pending_state.AP_FRAME_COUNTER + 1) % 2 ^ 32 ∧
    (ap_poll_mailbox_c pending_state).AP_ITEM_RCVD_COUNTER
        = (pending_state.AP_ITEM_RCVD_COUNTER + 1) % 2 ^ 32 ∧
    (ap_poll_mailbox_c pending_state).AP_DEBUG_LAST_ITEM_ID = pending_state.AP_IN_ITEM_ID ∧
    (ap_poll_mailbox_c pending_state).AP_DEBUG_LAST_FROM = pending_state.AP_IN_PLAYER ∧
    (ap_poll_mailbox_c pending_state).AP_IN_FLAG = 0 ∧
    (ap_poll_mailbox_c pending_state).AP_IN_ITEM_ID = pending_state.AP_IN_ITEM_ID ∧
    (ap_poll_mailbox_c pending_state).AP_IN_PLAYER = pending_state.AP_IN_PLAYER ∧
    ∀ t : State, t.KIRBY_LIVES = pending_state.KIRBY_LIVES →
      t.KIRBY_SHARD_FLAGS = pending_state.KIRBY_SHARD_FLAGS →
      t.AP_SHARD_BITFIELD = pending_state.AP_SHARD_BITFIELD →
      (ap_poll_mailbox_c pending_state).KIRBY_LIVES
        = (ap_apply_item pending_state.AP_IN_ITEM_ID t).KIRBY_LIVES ∧
      (ap_poll_mailbox_c pending_state).KIRBY_SHARD_FLAGS
        = (ap_apply_item pending_state.AP_IN_ITEM_ID t).KIRBY_SHARD_FLAGS ∧
      (ap_poll_mailbox_c pending_state).AP_SHARD_BITFIELD
        = (ap_apply_item pending_state.AP_IN_ITEM_ID t).AP_SHARD_BITFIELD) :=
  ⟨by decide, poll_pending_effect pending_state (by decide)⟩

/-- C2: when `pending_flag` is anything but 1, `n` consecutive polls leave the
state as it was except for `frame_counter`, which is the old value plus `n`
modulo 2^32 (the old value being that of a 32-bit register). -/
theorem poll_times_idle (s : State) (n : Nat) (hfc : s.AP_FRAME_COUNTER < 2 ^ 32)
    (h : s.AP_IN_FLAG ≠ 1) :
    poll_times n s = { s with AP_FRAME_COUNTER := (s.AP_FRAME_COUNTER + n) % 2 ^ 32 } := by
  induction n generalizing s with
  | zero =>
    have h0 : (s.AP_FRAME_COUNTER + 0) % 2 ^ 32 = s.AP_FRAME_COUNTER := by
      rw [Nat.add_zero, Nat.mod_eq_of_lt hfc]
    rw [h0]
    rfl
  | succ n ih =>
    have hstep : ((s.AP_FRAME_COUNTER + 1) % 2 ^ 32 + n) % 2 ^ 32
        = (s.AP_FRAME_COUNTER + (n + 1)) % 2 ^ 32 := by omega
    show poll_times n (ap_poll_mailbox_c s) = _
    rw [poll_idle s h,
      ih { s with AP_FRAME_COUNTER := (s.AP_FRAME_COUNTER + 1) % U32 }
        (Nat.mod_lt _ (by decide)) h]
    simp only [U32, hstep]

theorem poll_times_idle_witness :
    idle_state.AP_FRAME_COUNTER < 2 ^ 32 ∧ idle_state.AP_IN_FLAG ≠ 1 ∧
    poll_times 3 idle_state
      = { idle_state with AP_FRAME_COUNTER := (idle_state.AP_FRAME_COUNTER + 3) % 2 ^ 32 } :=
  ⟨by decide, by decide, poll_times_idle idle_state 3 (by decide) (by decide)⟩

/-- C3: a poll that drains the life grant `base + 1` adds one life when
`lives < 255` and keeps `lives` at 255 when it is 255; `shard_flags` and
`shard_mirror` are unchanged, `received_counter` grows by 1 (mod 2^32) and
`pending_flag` is 0. -/
theorem poll_life_grant (s : State) (hflag : s.AP_IN_FLAG = 1)
    (hid : s.AP_IN_ITEM_ID = KIRBY_ITEM_ID_BASE_OFFSET + 1) :
    (s.KIRBY_LIVES < 255 → (ap_poll_mailbox_c s).KIRBY_LIVES = s.KIRBY_LIVES + 1) ∧
    (s.KIRBY_LIVES = 255 → (ap_poll_mailbox_c s).KIRBY_LIVES = 255) ∧
    (ap_poll_mailbox_c s).KIRBY_SHARD_FLAGS = s.KIRBY_SHARD_FLAGS ∧
    (ap_poll_mailbox_c s).AP_SHARD_BITFIELD = s.AP_SHARD_BITFIELD ∧
    (ap_poll_mailbox_c s).AP_ITEM_RCVD_COUNTER = (s.AP_ITEM_RCVD_COUNTER + 1) % 2 ^ 32 ∧
    (ap_poll_mailbox_c s).AP_IN_FLAG = 0 := by
  rw [poll_drain s hflag, hid, ap_apply_item_life]
  by_cases hl : s.KIRBY_LIVES < 255
  · rw [if_pos hl]
    exact ⟨fun _ => rfl, fun h => absurd h (Nat.ne_of_lt hl), rfl, rfl, rfl, rfl⟩
  · rw [if_neg hl]
    exact ⟨fun h => absurd h hl, fun h => h, rfl, rfl, rfl, rfl⟩

theorem poll_life_grant_witness :
    (life_state_5.AP_IN_FLAG = 1 ∧ life_state_5.AP_IN_ITEM_ID = KIRBY_ITEM_ID_BASE_OFFSET + 1 ∧
      life_state_5.KIRBY_LIVES = 5 ∧ (ap_poll_mailbox_c life_state_5).KIRBY_LIVES = 5 + 1) ∧
    (life_state_255.AP_IN_FLAG = 1 ∧
      life_state_255.AP_IN_ITEM_ID = KIRBY_ITEM_ID_BASE_OFFSET + 1 ∧
      life_state_255.KIRBY_LIVES = 255 ∧ (ap_poll_mailbox_c life_state_255).KIRBY_LIVES = 255) :=
  ⟨⟨by decide, by decide, by decide,
      (poll_life_grant life_state_5 (by decide) (by decide)).1 (by decide)⟩,
   ⟨by decide, by decide, by decide,
      (poll_life_grant life_state_255 (by decide) (by decide)).2.1 (by decide)⟩⟩

/-- C4: for `k` in 0..7, `ap_apply_item (base + 2 + k)` leaves
`shard_flags | (1 << k)` in `shard_flags` and `shard_mirror | (1 << k)` in
`shard_mirror` (registers of 8 and 32 bits) and keeps `lives`: bit `k` is set in
both and every other bit of both keeps its old value. -/
theorem apply_shard_sets_bit (s : State) (k : Nat) (hk : k < 8)
    (hf : s.KIRBY_SHARD_FLAGS < 2 ^ 8) (hm : s.AP_SHARD_BITFIELD < 2 ^ 32) :
    (ap_apply_item (KIRBY_ITEM_ID_BASE_OFFSET + 2 + k) s).KIRBY_SHARD_FLAGS
      = s.KIRBY_SHARD_FLAGS ||| (1 <<< k) ∧
    (ap_apply_item (KIRBY_ITEM_ID_BASE_OFFSET + 2 + k) s).AP_SHARD_BITFIELD
      = s.AP_SHARD_BITFIELD ||| (1 <<< k) ∧
    (ap_apply_item (KIRBY_ITEM_ID_BASE_OFFSET + 2 + k) s).KIRBY_LIVES = s.KIRBY_LIVES ∧
    (ap_apply_item (KIRBY_ITEM_ID_BASE_OFFSET + 2 + k) s).KIRBY_SHARD_FLAGS.testBit k = true ∧
    (ap_apply_item (KIRBY_ITEM_ID_BASE_OFFSET + 2 + k) s).AP_SHARD_BITFIELD.testBit k = true ∧
    ∀ j, j ≠ k →
      (ap_apply_item (KIRBY_ITEM_ID_BASE_OFFSET + 2 + k) s).KIRBY_SHARD_FLAGS.testBit j
        = s.KIRBY_SHARD_FLAGS.testBit j ∧
      (ap_apply_item (KIRBY_ITEM_ID_BASE_OFFSET + 2 + k) s).AP_SHARD_BITFIELD.testBit j
        = s.AP_SHARD_BITFIELD.testBit j := by
  have e8 : (s.KIRBY_SHARD_FLAGS ||| 2 ^ k) % 2 ^ 8 = s.KIRBY_SHARD_FLAGS ||| 2 ^ k :=
    Nat.mod_eq_of_lt (or_two_pow_lt _ k 8 hf hk)
  have e32 : (s.AP_SHARD_BITFIELD ||| 2 ^ k) % 2 ^ 32 = s.AP_SHARD_BITFIELD ||| 2 ^ k :=
    Nat.mod_eq_of_lt (or_two_pow_lt _ k 32 hm (by omega))
  rw [ap_apply_item_shard s k hk]
  simp only [U32, U8, e8, e32, Nat.one_shiftLeft, Nat.testBit_or, Nat.testBit_two_pow_self,
    Bool.or_true, true_and]
  intro j hj
  have hjk : ¬ k = j := fun e => hj e.symm
  simp [Nat.testBit_two_pow, hjk]

theorem apply_shard_sets_bit_witness :
    (3 < 8 ∧ no_shard_state.KIRBY_SHARD_FLAGS < 2 ^ 8 ∧
      no_shard_state.AP_SHARD_BITFIELD < 2 ^ 32) ∧
    no_shard_state.KIRBY_SHARD_FLAGS = 0 ∧
    (ap_apply_item (KIRBY_ITEM_ID_BASE_OFFSET + 5) no_shard_state).KIRBY_SHARD_FLAGS = 8 ∧
    (ap_apply_item (KIRBY_ITEM_ID_BASE_OFFSET + 2 + 3) no_shard_state).AP_SHARD_BITFIELD.testBit 3
      = true :=
  ⟨⟨by decide, by decide, by decide⟩, by decide,
    (apply_shard_sets_bit no_shard_state 3 (by decide) (by decide) (by decide)).1,
    (apply_shard_sets_bit no_shard_state 3 (by decide) (by decide) (by decide)).2.2.2.2.1⟩

/-- C5: a poll that drains an identifier outside `base + 1 .. base + 9` leaves
`lives`, `shard_flags` and `shard_mirror` unchanged, and still adds 1 to
`received_counter` (mod 2^32) and clears `pending_flag`. -/
theorem poll_unknown_item (s : State) (hflag : s.AP_IN_FLAG = 1)
    (hid : s.AP_IN_ITEM_ID < KIRBY_ITEM_ID_BASE_OFFSET + 1 ∨
      KIRBY_ITEM_ID_BASE_OFFSET + 9 < s.AP_IN_ITEM_ID) :
    (ap_poll_mailbox_c s).KIRBY_LIVES = s.KIRBY_LIVES ∧
    (ap_poll_mailbox_c s).KIRBY_SHARD_FLAGS = s.KIRBY_SHARD_FLAGS ∧
    (ap_poll_mailbox_c s).AP_SHARD_BITFIELD = s.AP_SHARD_BITFIELD ∧
    (ap_poll_mailbox_c s).AP_ITEM_RCVD_COUNTER = (s.AP_ITEM_RCVD_COUNTER + 1) % 2 ^ 32 ∧
    (ap_poll_mailbox_c s).AP_IN_FLAG = 0 := by
  rw [poll_drain s hflag, ap_apply_item_other _ _ hid]
  exact ⟨rfl, rfl, rfl, rfl, rfl⟩

theorem poll_unknown_item_witness :
    (unknown_state.AP_IN_FLAG = 1 ∧
      (unknown_state.AP_IN_ITEM_ID < KIRBY_ITEM_ID_BASE_OFFSET + 1 ∨
        KIRBY_ITEM_ID_BASE_OFFSET + 9 < unknown_state.AP_IN_ITEM_ID)) ∧
    ((ap_poll_mailbox_c unknown_state).KIRBY_LIVES = unknown_state.KIRBY_LIVES ∧
    (ap_poll_mailbox_c unknown_state).KIRBY_SHARD_FLAGS = unknown_state.KIRBY_SHARD_FLAGS ∧
    (ap_poll_mailbox_c unknown_state).AP_SHARD_BITFIELD = unknown_state.AP_SHARD_BITFIELD ∧
    (ap_poll_mailbox_c unknown_state).AP_ITEM_RCVD_COUNTER
      = (unknown_state.AP_ITEM_RCVD_COUNTER + 1) % 2 ^ 32 ∧
    (ap_poll_mailbox_c unknown_state).AP_IN_FLAG = 0) :=
  ⟨⟨by decide, by decide⟩, poll_unknown_item unknown_state (by decide) (by decide)⟩

/-- C6: for a fragment identifier `id` in `base + 2 .. base + 9`, delivering it
twice (write with `pending_flag = 1`, poll, the same write, poll; the sender
fields `p1`, `p2` are free) leaves `lives`, `shard_flags` and `shard_mirror` as
delivering it once does, and `ap_apply_item id` applied twice equals
`ap_apply_item id` applied once. -/
theorem shard_delivery_idempotent (s : State) (id p1 p2 : Nat)
    (hlo : KIRBY_ITEM_ID_BASE_OFFSET + 2 ≤ id) (hhi : id ≤ KIRBY_ITEM_ID_BASE_OFFSET + 9) :
    (round (round s ⟨1, id, p1⟩) ⟨1, id, p2⟩).KIRBY_LIVES
      = (round s ⟨1, id, p1⟩).KIRBY_LIVES ∧
    (round (round s ⟨1, id, p1⟩) ⟨1, id, p2⟩).KIRBY_SHARD_FLAGS
      = (round s ⟨1, id, p1⟩).KIRBY_SHARD_FLAGS ∧
    (round (round s ⟨1, id, p1⟩) ⟨1, id, p2⟩).AP_SHARD_BITFIELD
      = (round s ⟨1, id, p1⟩).AP_SHARD_BITFIELD ∧
    ap_apply_item id (ap_apply_item id s) = ap_apply_item id s := by
  obtain ⟨k, hk, rfl⟩ : ∃ k, k < 8 ∧ id = KIRBY_ITEM_ID_BASE_OFFSET + 2 + k :=
    ⟨id - (KIRBY_ITEM_ID_BASE_OFFSET + 2), by omega, by omega⟩
  obtain ⟨a1, a2, a3⟩ := round_game s ⟨1, KIRBY_ITEM_ID_BASE_OFFSET + 2 + k, p1⟩
  obtain ⟨b1, b2, b3⟩ := round_game (round s ⟨1, KIRBY_ITEM_ID_BASE_OFFSET + 2 + k, p1⟩)
    ⟨1, KIRBY_ITEM_ID_BASE_OFFSET + 2 + k, p2⟩
  simp only [if_true] at a1 a2 a3 b1 b2 b3
  obtain ⟨c1, c2, c3⟩ := ap_apply_item_congr (KIRBY_ITEM_ID_BASE_OFFSET + 2 + k)
    (round s ⟨1, KIRBY_ITEM_ID_BASE_OFFSET + 2 + k, p1⟩)
    (ap_apply_item (KIRBY_ITEM_ID_BASE_OFFSET + 2 + k) s) a1 a2 a3
  have htw := ap_apply_item_shard_twice s k hk
  rw [htw] at c1 c2 c3
  exact ⟨by rw [b1, c1, a1], by rw [b2, c2, a2], by rw [b3, c3, a3], htw⟩

theorem shard_delivery_idempotent_witness :
    (KIRBY_ITEM_ID_BASE_OFFSET + 2 ≤ 3860005 ∧ 3860005 ≤ KIRBY_ITEM_ID_BASE_OFFSET + 9) ∧
    ((round (round replay_state ⟨1, 3860005, 7⟩) ⟨1, 3860005, 8⟩).KIRBY_LIVES
      = (round replay_state ⟨1, 3860005, 7⟩).KIRBY_LIVES ∧
    (round (round replay_state ⟨1, 3860005, 7⟩) ⟨1, 3860005, 8⟩).KIRBY_SHARD_FLAGS
      = (round replay_state ⟨1, 3860005, 7⟩).KIRBY_SHARD_FLAGS ∧
    (round (round replay_state ⟨1, 3860005, 7⟩) ⟨1, 3860005, 8⟩).AP_SHARD_BITFIELD
      = (round replay_state ⟨1, 3860005, 7⟩).AP_SHARD_BITFIELD ∧
    ap_apply_item 3860005 (ap_apply_item 3860005 replay_state)
      = ap_apply_item 3860005 replay_state) :=
  ⟨⟨by decide, by decide⟩,
    shard_delivery_idempotent replay_state 3860005 7 8 (by decide) (by decide)⟩

/-- C7, as the code has it: the applier is idempotent on the eight fragment
grants, and on the life grant only from `lives >= 254` on; below that a second
life grant adds a second life. The fragment registers are the same after two
applications as after one for every identifier in `base + 1 .. base + 9`. -/
theorem known_item_reapply (s : State) (id : Nat)
    (hlo : KIRBY_ITEM_ID_BASE_OFFSET + 1 ≤ id) (hhi : id ≤ KIRBY_ITEM_ID_BASE_OFFSET + 9) :
    (id ≠ KIRBY_ITEM_ID_BASE_OFFSET + 1 ∨ 254 ≤ s.KIRBY_LIVES →
      ap_apply_item id (ap_apply_item id s) = ap_apply_item id s) ∧
    (id = KIRBY_ITEM_ID_BASE_OFFSET + 1 → s.KIRBY_LIVES < 254 →
      (ap_apply_item id (ap_apply_item id s)).KIRBY_LIVES
        = (ap_apply_item id s).KIRBY_LIVES + 1) ∧
    (ap_apply_item id (ap_apply_item id s)).KIRBY_SHARD_FLAGS
      = (ap_apply_item id s).KIRBY_SHARD_FLAGS ∧
    (ap_apply_item id (ap_apply_item id s)).AP_SHARD_BITFIELD
      = (ap_apply_item id s).AP_SHARD_BITFIELD := by
  rcases item_cases id with rfl | ⟨k, hk, rfl⟩ | h
  · rw [ap_apply_item_life_twice, ap_apply_item_life]
    by_cases h1 : s.KIRBY_LIVES < 254
    · have h2 : s.KIRBY_LIVES < 255 := by omega
      rw [if_pos h1, if_pos h2]
      exact ⟨fun h => by omega, fun _ _ => rfl, rfl, rfl⟩
    · rw [if_neg h1]
      exact ⟨fun _ => rfl, fun _ h => absurd h h1, rfl, rfl⟩
  · have htw := ap_apply_item_shard_twice s k hk
    rw [htw]
    exact ⟨fun _ => rfl, fun h => by omega, rfl, rfl⟩
  · omega

theorem known_item_reapply_witness :
    (KIRBY_ITEM_ID_BASE_OFFSET + 1 ≤ 3860001 ∧ 3860001 ≤ KIRBY_ITEM_ID_BASE_OFFSET + 9 ∧
      3860001 = KIRBY_ITEM_ID_BASE_OFFSET + 1 ∧ replay_state.KIRBY_LIVES < 254) ∧
    (ap_apply_item 3860001 (ap_apply_item 3860001 replay_state)).KIRBY_LIVES
      = (ap_apply_item 3860001 replay_state).KIRBY_LIVES + 1 :=
  ⟨⟨by decide, by decide, by decide, by decide⟩,
    (known_item_reapply replay_state 3860001 (by decide) (by decide)).2.1
      (by decide) (by decide)⟩

/-- C7 as stated fails: the life grant `base + 1` is a known item, and applied
twice to 5 lives it leaves 7 where one application leaves 6. -/
theorem life_grant_not_idempotent :
    KIRBY_ITEM_ID_BASE_OFFSET + 1 ≤ 3860001 ∧ 3860001 ≤ KIRBY_ITEM_ID_BASE_OFFSET + 9 ∧
    (ap_apply_item 3860001 replay_state).KIRBY_LIVES = 6 ∧
    (ap_apply_item 3860001 (ap_apply_item 3860001 replay_state)).KIRBY_LIVES = 7 ∧
    (ap_apply_item 3860001 (ap_apply_item 3860001 replay_state)).KIRBY_LIVES
      ≠ (ap_apply_item 3860001 replay_state).KIRBY_LIVES := by
  decide

/-- C8: from a state whose `shard_mirror` and `shard_flags` are 0, after any
sequence of rounds (external write of the three input registers, then a poll)
and for `k` in 0..7, bit `k` of `shard_mirror` is set iff bit `k` of
`shard_flags` is set, iff one of the drained writes (flag 1) carried
`base + 2 + k`; and a poll of any state keeps
`(shard_mirror & 0xFF) == shard_flags`. -/
theorem shard_mirror_tracks_flags (s : State) (ws : List MailboxWrite) (k : Nat)
    (hk : k < 8) (hm : s.AP_SHARD_BITFIELD = 0) (hf : s.KIRBY_SHARD_FLAGS = 0) :
    ((run_rounds s ws).AP_SHARD_BITFIELD.testBit k = true ↔
      (run_rounds s ws).KIRBY_SHARD_FLAGS.testBit k = true) ∧
    ((run_rounds s ws).KIRBY_SHARD_FLAGS.testBit k = true ↔
      ∃ w, w ∈ ws ∧ w.flag = 1 ∧ w.item = KIRBY_ITEM_ID_BASE_OFFSET + 2 + k) ∧
    (∀ t : State, t.AP_SHARD_BITFIELD &&& 0xFF = t.KIRBY_SHARD_FLAGS →
      (ap_poll_mailbox_c t).AP_SHARD_BITFIELD &&& 0xFF
        = (ap_poll_mailbox_c t).KIRBY_SHARD_FLAGS) := by
  obtain ⟨b1, b2⟩ := run_rounds_bits ws s k hk
  have hex : (∃ w, w ∈ drained ws ∧ w.item = KIRBY_ITEM_ID_BASE_OFFSET + 2 + k) ↔
      ∃ w, w ∈ ws ∧ w.flag = 1 ∧ w.item = KIRBY_ITEM_ID_BASE_OFFSET + 2 + k := by
    constructor
    · rintro ⟨w, hw, hi⟩
      exact ⟨w, ((mem_drained w ws).mp hw).1, ((mem_drained w ws).mp hw).2, hi⟩
    · rintro ⟨w, hw, hfl, hi⟩
      exact ⟨w, (mem_drained w ws).mpr ⟨hw, hfl⟩, hi⟩
  rw [hf, hex] at b1
  rw [hm, hex] at b2
  simp only [Nat.zero_testBit, Bool.false_eq_true, false_or] at b1 b2
  refine ⟨b2.trans b1.symm, b1, ?_⟩
  intro t ht
  obtain ⟨-, g2, g3⟩ := poll_game t
  rw [g2, g3]
  by_cases hfl : t.AP_IN_FLAG = 1
  · simp only [hfl, if_true]
    rcases item_cases t.AP_IN_ITEM_ID with e | ⟨j, hj, e⟩ | h
    · rw [e, ap_apply_item_life]
      split_ifs <;> exact ht
    · rw [e, ap_apply_item_shard t j hj]
      simp only [U32, U8]
      rw [mirror_low_byte, ht]
    · rw [ap_apply_item_other t _ h]
      exact ht
  · simp only [hfl, if_false]
    exact ht

theorem shard_mirror_tracks_flags_witness :
    (3 < 8 ∧ no_shard_state.AP_SHARD_BITFIELD = 0 ∧ no_shard_state.KIRBY_SHARD_FLAGS = 0) ∧
    (((run_rounds no_shard_state sample_rounds).AP_SHARD_BITFIELD.testBit 3 = true ↔
      (run_rounds no_shard_state sample_rounds).KIRBY_SHARD_FLAGS.testBit 3 = true) ∧
    ((run_rounds no_shard_state sample_rounds).KIRBY_SHARD_FLAGS.testBit 3 = true ↔
      ∃ w, w ∈ sample_rounds ∧ w.flag = 1 ∧ w.item = KIRBY_ITEM_ID_BASE_OFFSET + 2 + 3) ∧
    (∀ t : State, t.AP_SHARD_BITFIELD &&& 0xFF = t.KIRBY_SHARD_FLAGS →
      (ap_poll_mailbox_c t).AP_SHARD_BITFIELD &&& 0xFF
        = (ap_poll_mailbox_c t).KIRBY_SHARD_FLAGS)) :=
  ⟨⟨by decide, by decide, by decide⟩,
    shard_mirror_tracks_flags no_shard_state sample_rounds 3 (by decide) (by decide)
      (by decide)⟩

/-- C9: for every identifier, `lives` (an 8-bit register) after
`ap_apply_item`, and after a poll, is at least the old `lives`, at most 255,
and at most the old `lives` plus 1. -/
theorem lives_monotone_bounded (s : State) (id : Nat) (hl : s.KIRBY_LIVES < 2 ^ 8) :
    (s.KIRBY_LIVES ≤ (ap_apply_item id s).KIRBY_LIVES ∧
      (ap_apply_item id s).KIRBY_LIVES ≤ 255 ∧
      (ap_apply_item id s).KIRBY_LIVES ≤ s.KIRBY_LIVES + 1) ∧
    (s.KIRBY_LIVES ≤ (ap_poll_mailbox_c s).KIRBY_LIVES ∧
      (ap_poll_mailbox_c s).KIRBY_LIVES ≤ 255 ∧
      (ap_poll_mailbox_c s).KIRBY_LIVES ≤ s.KIRBY_LIVES + 1) := by
  have key : ∀ i, s.KIRBY_LIVES ≤ (ap_apply_item i s).KIRBY_LIVES ∧
      (ap_apply_item i s).KIRBY_LIVES ≤ 255 ∧
      (ap_apply_item i s).KIRBY_LIVES ≤ s.KIRBY_LIVES + 1 := by
    intro i
    rw [ap_apply_item_lives]
    split_ifs with h <;> omega
  refine ⟨key id, ?_⟩
  rw [(poll_game s).1]
  by_cases hfl : s.AP_IN_FLAG = 1
  · simp only [hfl, if_true]
    exact key s.AP_IN_ITEM_ID
  · simp only [hfl, if_false]
    omega

theorem lives_monotone_bounded_witness :
    life_state_255.KIRBY_LIVES < 2 ^ 8 ∧
    ((life_state_255.KIRBY_LIVES ≤ (ap_apply_item 3860001 life_state_255).KIRBY_LIVES ∧
      (ap_apply_item 3860001 life_state_255).KIRBY_LIVES ≤ 255 ∧
      (ap_apply_item 3860001 life_state_255).KIRBY_LIVES ≤ life_state_255.KIRBY_LIVES + 1) ∧
    (life_state_255.KIRBY_LIVES ≤ (ap_poll_mailbox_c life_state_255).KIRBY_LIVES ∧
      (ap_poll_mailbox_c life_state_255).KIRBY_LIVES ≤ 255 ∧
      (ap_poll_mailbox_c life_state_255).KIRBY_LIVES ≤ life_state_255.KIRBY_LIVES + 1)) :=
  ⟨by decide, lives_monotone_bounded life_state_255 3860001 (by decide)⟩

/-- C10: for every identifier, neither `ap_apply_item` nor a poll clears a
bit: each bit set in `shard_flags` (8 bits) stays set, each bit set in
`shard_mirror` (32 bits) stays set, and the bits of `shard_mirror` from bit 8
up keep their value. -/
theorem shard_bits_never_cleared (s : State) (id : Nat)
    (hf : s.KIRBY_SHARD_FLAGS < 2 ^ 8) (hm : s.AP_SHARD_BITFIELD < 2 ^ 32) :
    ((∀ j, s.KIRBY_SHARD_FLAGS.testBit j = true →
        (ap_apply_item id s).KIRBY_SHARD_FLAGS.testBit j = true) ∧
      (∀ j, s.AP_SHARD_BITFIELD.testBit j = true →
        (ap_apply_item id s).AP_SHARD_BITFIELD.testBit j = true) ∧
      (∀ j, 8 ≤ j →
        (ap_apply_item id s).AP_SHARD_BITFIELD.testBit j = s.AP_SHARD_BITFIELD.testBit j)) ∧
    ((∀ j, s.KIRBY_SHARD_FLAGS.testBit j = true →
        (ap_poll_mailbox_c s).KIRBY_SHARD_FLAGS.testBit j = true) ∧
      (∀ j, s.AP_SHARD_BITFIELD.testBit j = true →
        (ap_poll_mailbox_c s).AP_SHARD_BITFIELD.testBit j = true) ∧
      (∀ j, 8 ≤ j →
        (ap_poll_mailbox_c s).AP_SHARD_BITFIELD.testBit j = s.AP_SHARD_BITFIELD.testBit j)) := by
  refine ⟨ap_apply_item_bits id s hf hm, ?_⟩
  obtain ⟨-, g2, g3⟩ := poll_game s
  rw [g2, g3]
  by_cases hfl : s.AP_IN_FLAG = 1
  · simp only [hfl, if_true]
    exact ap_apply_item_bits s.AP_IN_ITEM_ID s hf hm
  · rw [if_neg hfl]
    exact ⟨fun _ h => h, fun _ h => h, fun _ _ => rfl⟩

theorem shard_bits_never_cleared_witness :
    (pending_state.KIRBY_SHARD_FLAGS < 2 ^ 8 ∧ pending_state.AP_SHARD_BITFIELD < 2 ^ 32) ∧
    (∀ j, 8 ≤ j →
      (ap_poll_mailbox_c pending_state).AP_SHARD_BITFIELD.testBit j
        = pending_state.AP_SHARD_BITFIELD.testBit j) :=
  ⟨⟨by decide, by decide⟩,
    (shard_bits_never_cleared pending_state 3860005 (by decide) (by decide)).2.2.2⟩

/-- C11: after `N` rounds (external write, then poll) `frame_counter` is the
initial value plus `N` and `received_counter` the initial value plus the number
of rounds whose poll found `pending_flag == 1`, both modulo 2^32 (the initial
values being those of 32-bit registers); a counter at `0xFFFFFFFF` wraps to 0,
and the values of the counters change nothing else a poll does. -/
theorem counters_after_rounds (s : State) (ws : List MailboxWrite)
    (hfc : s.AP_FRAME_COUNTER < 2 ^ 32) (hrc : s.AP_ITEM_RCVD_COUNTER < 2 ^ 32) :
    (run_rounds s ws).AP_FRAME_COUNTER = (s.AP_FRAME_COUNTER + ws.length) % 2 ^ 32 ∧
    (run_rounds s ws).AP_ITEM_RCVD_COUNTER
      = (s.AP_ITEM_RCVD_COUNTER + (drained ws).length) % 2 ^ 32 ∧
    (∀ t : State, t.AP_FRAME_COUNTER = 0xFFFFFFFF → (ap_poll_mailbox_c t).AP_FRAME_COUNTER = 0) ∧
    (∀ t : State, t.AP_IN_FLAG = 1 → t.AP_ITEM_RCVD_COUNTER = 0xFFFFFFFF →
      (ap_poll_mailbox_c t).AP_ITEM_RCVD_COUNTER = 0) ∧
    (∀ (t : State) (c1 c2 : Nat),
      ap_poll_mailbox_c { t with AP_FRAME_COUNTER := c1, AP_ITEM_RCVD_COUNTER := c2 }
        = { ap_poll_mailbox_c t with
              AP_FRAME_COUNTER := (c1 + 1) % 2 ^ 32,
              AP_ITEM_RCVD_COUNTER := if t.AP_IN_FLAG = 1 then (c2 + 1) % 2 ^ 32 else c2 }) := by
  have hrun : ∀ (l : List MailboxWrite) (u : State), u.AP_FRAME_COUNTER < 2 ^ 32 →
      u.AP_ITEM_RCVD_COUNTER < 2 ^ 32 →
      (run_rounds u l).AP_FRAME_COUNTER = (u.AP_FRAME_COUNTER + l.length) % 2 ^ 32 ∧
      (run_rounds u l).AP_ITEM_RCVD_COUNTER
        = (u.AP_ITEM_RCVD_COUNTER + (drained l).length) % 2 ^ 32 := by
    intro l
    induction l with
    | nil =>
      intro u h1 h2
      exact ⟨(Nat.mod_eq_of_lt h1).symm, (Nat.mod_eq_of_lt h2).symm⟩
    | cons w l ih =>
      intro u h1 h2
      obtain ⟨r1, r2⟩ := round_counters u w
      simp only [U32] at r1 r2
      have b1 : (round u w).AP_FRAME_COUNTER < 2 ^ 32 := by rw [r1]; omega
      have b2 : (round u w).AP_ITEM_RCVD_COUNTER < 2 ^ 32 := by
        rw [r2]; split_ifs <;> omega
      obtain ⟨i1, i2⟩ := ih (round u w) b1 b2
      have hstep : run_rounds u (w :: l) = run_rounds (round u w) l := rfl
      rw [hstep, i1, i2, r1, r2, drained_cons, List.length_cons]
      constructor
      · omega
      · split_ifs <;> omega
  refine ⟨(hrun ws s hfc hrc).1, (hrun ws s hfc hrc).2, ?_, ?_, ?_⟩
  · intro t ht
    rw [poll_frame_counter t, ht]
    rfl
  · intro t h ht
    rw [(poll_drain_fields t h).2.1, ht]
    rfl
  · intro t c1 c2
    by_cases h : t.AP_IN_FLAG = 1
    · have h2 : ({ t with AP_FRAME_COUNTER := c1, AP_ITEM_RCVD_COUNTER := c2 } : State).AP_IN_FLAG
          = 1 := h
      rw [poll_drain _ h2, poll_drain t h, if_pos h]
      unfold ap_apply_item
      dsimp only
      split_ifs <;> simp [U32]
    · have h2 : ({ t with AP_FRAME_COUNTER := c1, AP_ITEM_RCVD_COUNTER := c2 } : State).AP_IN_FLAG
          ≠ 1 := h
      rw [poll_idle _ h2, poll_idle t h, if_neg h]
      simp [U32]

theorem counters_after_rounds_witness :
    (wrapping_state.AP_FRAME_COUNTER < 2 ^ 32 ∧ wrapping_state.AP_ITEM_RCVD_COUNTER < 2 ^ 32) ∧
    (run_rounds wrapping_state counter_rounds).AP_FRAME_COUNTER
      = (wrapping_state.AP_FRAME_COUNTER + counter_rounds.length) % 2 ^ 32 ∧
    (run_rounds wrapping_state counter_rounds).AP_ITEM_RCVD_COUNTER
      = (wrapping_state.AP_ITEM_RCVD_COUNTER + (drained counter_rounds).length) % 2 ^ 32 :=
  ⟨⟨by decide, by decide⟩,
    (counters_after_rounds wrapping_state counter_rounds (by decide) (by decide)).1,
    (counters_after_rounds wrapping_state counter_rounds (by decide) (by decide)).2.1⟩

/-- C12: last writer wins. With a message `(id, from)` written as
`item_id = id`, `from_player = from`, `pending_flag = 1`, a poll after the writes
of `m1` then `m2` gives the same state as a poll after the write of `m2` alone:
`received_counter` grows by 1, the debug mirrors hold `m2`, and `lives`,
`shard_flags` and `shard_mirror` are those of `ap_apply_item` of `m2`. -/
theorem last_writer_wins (s : State) (id1 from1 id2 from2 : Nat) :
    ap_poll_mailbox_c (external_write ⟨1, id2, from2⟩ (external_write ⟨1, id1, from1⟩ s))
      = ap_poll_mailbox_c (external_write ⟨1, id2, from2⟩ s) ∧
    (ap_poll_mailbox_c (external_write ⟨1, id2, from2⟩
        (external_write ⟨1, id1, from1⟩ s))).AP_ITEM_RCVD_COUNTER
      = (s.AP_ITEM_RCVD_COUNTER + 1) % 2 ^ 32 ∧
    (ap_poll_mailbox_c (external_write ⟨1, id2, from2⟩
        (external_write ⟨1, id1, from1⟩ s))).AP_DEBUG_LAST_ITEM_ID = id2 ∧
    (ap_poll_mailbox_c (external_write ⟨1, id2, from2⟩
        (external_write ⟨1, id1, from1⟩ s))).AP_DEBUG_LAST_FROM = from2 ∧
    (ap_poll_mailbox_c (external_write ⟨1, id2, from2⟩
        (external_write ⟨1, id1, from1⟩ s))).KIRBY_LIVES = (ap_apply_item id2 s).KIRBY_LIVES ∧
    (ap_poll_mailbox_c (external_write ⟨1, id2, from2⟩
        (external_write ⟨1, id1, from1⟩ s))).KIRBY_SHARD_FLAGS
      = (ap_apply_item id2 s).KIRBY_SHARD_FLAGS ∧
    (ap_poll_mailbox_c (external_write ⟨1, id2, from2⟩
        (external_write ⟨1, id1, from1⟩ s))).AP_SHARD_BITFIELD
      = (ap_apply_item id2 s).AP_SHARD_BITFIELD := by
  have hw : external_write ⟨1, id2, from2⟩ (external_write ⟨1, id1, from1⟩ s)
      = external_write ⟨1, id2, from2⟩ s := rfl
  rw [hw]
  obtain ⟨c1, c2⟩ := round_counters s ⟨1, id2, from2⟩
  obtain ⟨g1, g2, g3⟩ := round_game s ⟨1, id2, from2⟩
  have hfl : (external_write ⟨1, id2, from2⟩ s).AP_IN_FLAG = 1 := rfl
  obtain ⟨-, -, d1, d2, -⟩ := poll_drain_fields (external_write ⟨1, id2, from2⟩ s) hfl
  exact ⟨rfl, c2, d1, d2, g1, g2, g3⟩

/-- C13: after a poll `pending_flag` is not 1: it is 0 if it was 1 and
unchanged otherwise; hence a second poll, with no write in between, changes
nothing but `frame_counter`, which grows by 1 (mod 2^32). -/
theorem poll_consumes_once (s : State) :
    (ap_poll_mailbox_c s).AP_IN_FLAG ≠ 1 ∧
    (s.AP_IN_FLAG = 1 → (ap_poll_mailbox_c s).AP_IN_FLAG = 0) ∧
    (s.AP_IN_FLAG ≠ 1 → (ap_poll_mailbox_c s).AP_IN_FLAG = s.AP_IN_FLAG) ∧
    ap_poll_mailbox_c (ap_poll_mailbox_c s)
      = { ap_poll_mailbox_c s with
            AP_FRAME_COUNTER := ((ap_poll_mailbox_c s).AP_FRAME_COUNTER + 1) % 2 ^ 32 } := by
  refine ⟨poll_flag_ne_one s, ?_, ?_, poll_idle _ (poll_flag_ne_one s)⟩
  · intro h
    rw [poll_drain s h]
  · intro h
    rw [poll_idle s h]

theorem poll_consumes_once_witness :
    pending_state.AP_IN_FLAG = 1 ∧ (ap_poll_mailbox_c pending_state).AP_IN_FLAG = 0 ∧
    idle_state.AP_IN_FLAG ≠ 1 ∧ (ap_poll_mailbox_c idle_state).AP_IN_FLAG = idle_state.AP_IN_FLAG :=
  ⟨by decide, (poll_consumes_once pending_state).2.1 (by decide),
   by decide, (poll_consumes_once idle_state).2.2.1 (by decide)⟩

/-- C14: in a poll that finds `pending_flag == 1`, the store of 0 to
`pending_flag` is the last store of the poll and the only store to that
register: the stores to `frame_counter`, `received_counter` and the two debug
mirrors come first, in that order, then those of the applier; after any
proper prefix of the stores `pending_flag` is still 1, and before the last
store `lives`, `shard_flags` and `shard_mirror` already hold their final values.
The stores, replayed, give the state the poll returns. -/
theorem flag_cleared_last (s : State) (h : s.AP_IN_FLAG = 1) :
    (ap_poll_mailbox_c_stores s).getLast? = some ⟨Reg.AP_IN_FLAG, 0⟩ ∧
    (∀ w ∈ (ap_poll_mailbox_c_stores s).dropLast, w.reg ≠ Reg.AP_IN_FLAG) ∧
    ((ap_poll_mailbox_c_stores s).take 4).map Store.reg
      = [Reg.AP_FRAME_COUNTER, Reg.AP_ITEM_RCVD_COUNTER, Reg.AP_DEBUG_LAST_ITEM_ID,
         Reg.AP_DEBUG_LAST_FROM] ∧
    (∀ n, n < (ap_poll_mailbox_c_stores s).length →
      (replay s ((ap_poll_mailbox_c_stores s).take n)).AP_IN_FLAG = 1) ∧
    ((replay s (ap_poll_mailbox_c_stores s).dropLast).KIRBY_LIVES
        = (ap_poll_mailbox_c s).KIRBY_LIVES ∧
      (replay s (ap_poll_mailbox_c_stores s).dropLast).KIRBY_SHARD_FLAGS
        = (ap_poll_mailbox_c s).KIRBY_SHARD_FLAGS ∧
      (replay s (ap_poll_mailbox_c_stores s).dropLast).AP_SHARD_BITFIELD
        = (ap_poll_mailbox_c s).AP_SHARD_BITFIELD) ∧
    replay s (ap_poll_mailbox_c_stores s) = ap_poll_mailbox_c s := by
  have hd := ap_poll_mailbox_c_stores_drain s h
  generalize hpre : [(⟨Reg.AP_FRAME_COUNTER, (s.AP_FRAME_COUNTER + 1) % U32⟩ : Store),
        ⟨Reg.AP_ITEM_RCVD_COUNTER, (s.AP_ITEM_RCVD_COUNTER + 1) % U32⟩,
        ⟨Reg.AP_DEBUG_LAST_ITEM_ID, s.AP_IN_ITEM_ID⟩,
        ⟨Reg.AP_DEBUG_LAST_FROM, s.AP_IN_PLAYER⟩] ++
        ap_apply_item_stores s.AP_IN_ITEM_ID
          { s with AP_FRAME_COUNTER := (s.AP_FRAME_COUNTER + 1) % U32,
                   AP_ITEM_RCVD_COUNTER := (s.AP_ITEM_RCVD_COUNTER + 1) % U32,
                   AP_DEBUG_LAST_ITEM_ID := s.AP_IN_ITEM_ID,
                   AP_DEBUG_LAST_FROM := s.AP_IN_PLAYER } = pre at hd
  have hnoflag : ∀ w ∈ pre, w.reg ≠ Reg.AP_IN_FLAG := by
    intro w hw
    rw [← hpre] at hw
    rcases List.mem_append.mp hw with h4 | ha
    · simp only [List.mem_cons, List.mem_singleton, List.not_mem_nil, or_false] at h4
      rcases h4 with e | e | e | e <;> rw [e] <;> exact Reg.noConfusion
    · exact ap_apply_item_stores_reg _ _ w ha
  have htake4 : (pre.take 4).map Store.reg
      = [Reg.AP_FRAME_COUNTER, Reg.AP_ITEM_RCVD_COUNTER, Reg.AP_DEBUG_LAST_ITEM_ID,
         Reg.AP_DEBUG_LAST_FROM] := by
    rw [← hpre]
    rfl
  have hlen4 : 4 ≤ pre.length := by
    rw [← hpre, List.length_append]
    exact Nat.le_add_right 4 _
  have hrep := replay_ap_poll_mailbox_c_stores s
  have hfinal : replay s pre = { ap_poll_mailbox_c s with AP_IN_FLAG := 1 } := by
    have hkeep := replay_keeps_flag pre s hnoflag
    rw [hd, replay_append] at hrep
    rw [← hrep]
    show replay s pre = { (replay s pre).store ⟨Reg.AP_IN_FLAG, 0⟩ with AP_IN_FLAG := 1 }
    rw [← h, ← hkeep]
    rfl
  rw [hd, List.dropLast_concat]
  refine ⟨List.getLast?_concat pre, hnoflag, ?_, ?_, ?_, ?_⟩
  · rw [List.take_append_of_le_length hlen4]
    exact htake4
  · intro n hn
    have hn2 : n ≤ pre.length := by
      rw [List.length_append, List.length_singleton] at hn
      omega
    rw [List.take_append_of_le_length hn2,
      replay_keeps_flag _ s (fun w hw => hnoflag w (List.mem_of_mem_take hw))]
    exact h
  · rw [hfinal]
    exact ⟨rfl, rfl, rfl⟩
  · rw [← hd]
    exact hrep

theorem flag_cleared_last_witness :
    pending_state.AP_IN_FLAG = 1 ∧
    (ap_poll_mailbox_c_stores pending_state).getLast? = some ⟨Reg.AP_IN_FLAG, 0⟩ ∧
    (∀ w ∈ (ap_poll_mailbox_c_stores pending_state).dropLast, w.reg ≠ Reg.AP_IN_FLAG) ∧
    replay pending_state (ap_poll_mailbox_c_stores pending_state)
      = ap_poll_mailbox_c pending_state :=
  ⟨by decide, (flag_cleared_last pending_state (by decide)).1,
    (flag_cleared_last pending_state (by decide)).2.1,
    (flag_cleared_last pending_state (by decide)).2.2.2.2.2⟩

/-- C15: for every state and identifiers `a`, `b`, the applier run on `a` then
`b` leaves the same `lives`, `shard_flags` and `shard_mirror` (indeed the same
state) as run on `b` then `a`; hence two lists of deliveries that are
permutations of each other leave the same state. -/
theorem delivery_order_irrelevant (s : State) (a b : Nat) (ids ids2 : List Nat)
    (hp : ids.Perm ids2) :
    (ap_apply_item b (ap_apply_item a s)).KIRBY_LIVES
      = (ap_apply_item a (ap_apply_item b s)).KIRBY_LIVES ∧
    (ap_apply_item b (ap_apply_item a s)).KIRBY_SHARD_FLAGS
      = (ap_apply_item a (ap_apply_item b s)).KIRBY_SHARD_FLAGS ∧
    (ap_apply_item b (ap_apply_item a s)).AP_SHARD_BITFIELD
      = (ap_apply_item a (ap_apply_item b s)).AP_SHARD_BITFIELD ∧
    ap_apply_item b (ap_apply_item a s) = ap_apply_item a (ap_apply_item b s) ∧
    apply_all ids s = apply_all ids2 s := by
  have hc := ap_apply_item_comm a b s
  refine ⟨by rw [hc], by rw [hc], by rw [hc], hc, ?_⟩
  unfold apply_all
  exact List.Perm.foldl_eq' hp (fun x _ y _ z => ap_apply_item_comm x y z) s

theorem delivery_order_irrelevant_witness :
    [3860001, 3860005, 3860001].Perm [3860005, 3860001, 3860001] ∧
    apply_all [3860001, 3860005, 3860001] replay_state
      = apply_all [3860005, 3860001, 3860001] replay_state :=
  ⟨List.Perm.swap 3860005 3860001 [3860001],
    (delivery_order_irrelevant replay_state 3860001 3860005 [3860001, 3860005, 3860001]
      [3860005, 3860001, 3860001] (List.Perm.swap 3860005 3860001 [3860001])).2.2.2.2⟩

/-- C16: two states that agree on `lives`, `shard_flags`, `pending_flag` and
`item_id` agree on `lives` and `shard_flags` after a poll, whatever their other
registers hold. -/
theorem game_state_noninterference (s t : State)
    (hl : s.KIRBY_LIVES = t.KIRBY_LIVES) (hf : s.KIRBY_SHARD_FLAGS = t.KIRBY_SHARD_FLAGS)
    (hp : s.AP_IN_FLAG = t.AP_IN_FLAG) (hi : s.AP_IN_ITEM_ID = t.AP_IN_ITEM_ID) :
    (ap_poll_mailbox_c s).KIRBY_LIVES = (ap_poll_mailbox_c t).KIRBY_LIVES ∧
    (ap_poll_mailbox_c s).KIRBY_SHARD_FLAGS = (ap_poll_mailbox_c t).KIRBY_SHARD_FLAGS := by
  obtain ⟨a1, a2, -⟩ := poll_game s
  obtain ⟨b1, b2, -⟩ := poll_game t
  rw [a1, a2, b1, b2, hp, hi]
  by_cases h : t.AP_IN_FLAG = 1
  · rw [if_pos h, if_pos h, ap_apply_item_lives, ap_apply_item_lives, hl]
    exact ⟨rfl, ap_apply_item_flags_congr _ s t hf⟩
  · rw [if_neg h, if_neg h]
    exact ⟨hl, hf⟩

theorem game_state_noninterference_witness :
    (life_state_5.KIRBY_LIVES = life_state_5_other.KIRBY_LIVES ∧
      life_state_5.KIRBY_SHARD_FLAGS = life_state_5_other.KIRBY_SHARD_FLAGS ∧
      life_state_5.AP_IN_FLAG = life_state_5_other.AP_IN_FLAG ∧
      life_state_5.AP_IN_ITEM_ID = life_state_5_other.AP_IN_ITEM_ID) ∧
    ((ap_poll_mailbox_c life_state_5).KIRBY_LIVES
        = (ap_poll_mailbox_c life_state_5_other).KIRBY_LIVES ∧
      (ap_poll_mailbox_c life_state_5).KIRBY_SHARD_FLAGS
        = (ap_poll_mailbox_c life_state_5_other).KIRBY_SHARD_FLAGS) :=
  ⟨⟨by decide, by decide, by decide, by decide⟩,
    game_state_noninterference life_state_5 life_state_5_other
      (by decide) (by decide) (by decide) (by decide)⟩

/-- C17: a poll never changes `item_id` or `from_player`. The applier on the
life grant `base + 1` changes no register but `lives`, and a poll that drains
it leaves `shard_flags` and `shard_mirror` as they were; the applier on a
fragment grant `base + 2 .. base + 9` changes no register but `shard_flags` and
`shard_mirror`, and a poll that drains it leaves `lives` as it was. -/
theorem effect_frames (s : State) (id : Nat) :
    ((ap_poll_mailbox_c s).AP_IN_ITEM_ID = s.AP_IN_ITEM_ID ∧
      (ap_poll_mailbox_c s).AP_IN_PLAYER = s.AP_IN_PLAYER) ∧
    (id = KIRBY_ITEM_ID_BASE_OFFSET + 1 →
      ap_apply_item id s = { s with KIRBY_LIVES := (ap_apply_item id s).KIRBY_LIVES } ∧
      (s.AP_IN_FLAG = 1 → s.AP_IN_ITEM_ID = id →
        (ap_poll_mailbox_c s).KIRBY_SHARD_FLAGS = s.KIRBY_SHARD_FLAGS ∧
        (ap_poll_mailbox_c s).AP_SHARD_BITFIELD = s.AP_SHARD_BITFIELD)) ∧
    (KIRBY_ITEM_ID_BASE_OFFSET + 2 ≤ id → id ≤ KIRBY_ITEM_ID_BASE_OFFSET + 9 →
      ap_apply_item id s
        = { s with AP_SHARD_BITFIELD := (ap_apply_item id s).AP_SHARD_BITFIELD,
                   KIRBY_SHARD_FLAGS := (ap_apply_item id s).KIRBY_SHARD_FLAGS } ∧
      (s.AP_IN_FLAG = 1 → s.AP_IN_ITEM_ID = id →
        (ap_poll_mailbox_c s).KIRBY_LIVES = s.KIRBY_LIVES)) := by
  refine ⟨?_, ?_, ?_⟩
  · by_cases h : s.AP_IN_FLAG = 1
    · exact ⟨(poll_drain_fields s h).2.2.2.2.2.1, (poll_drain_fields s h).2.2.2.2.2.2⟩
    · rw [poll_idle s h]
      exact ⟨rfl, rfl⟩
  · intro hid
    subst hid
    constructor
    · rw [ap_apply_item_life]
      split_ifs <;> rfl
    · intro hfl hitem
      obtain ⟨-, g2, g3⟩ := poll_game s
      rw [g2, g3, if_pos hfl, hitem, ap_apply_item_life]
      split_ifs <;> exact ⟨rfl, rfl⟩
  · intro hlo hhi
    obtain ⟨k, hk, rfl⟩ : ∃ k, k < 8 ∧ id = KIRBY_ITEM_ID_BASE_OFFSET + 2 + k :=
      ⟨id - (KIRBY_ITEM_ID_BASE_OFFSET + 2), by omega, by omega⟩
    constructor
    · rw [ap_apply_item_shard s k hk]
    · intro hfl hitem
      rw [(poll_game s).1, if_pos hfl, hitem, ap_apply_item_shard s k hk]

theorem effect_frames_witness :
    (3860001 = KIRBY_ITEM_ID_BASE_OFFSET + 1 ∧ life_state_5.AP_IN_FLAG = 1 ∧
      life_state_5.AP_IN_ITEM_ID = 3860001) ∧
    ((ap_poll_mailbox_c life_state_5).KIRBY_SHARD_FLAGS = life_state_5.KIRBY_SHARD_FLAGS ∧
      (ap_poll_mailbox_c life_state_5).AP_SHARD_BITFIELD = life_state_5.AP_SHARD_BITFIELD) ∧
    (KIRBY_ITEM_ID_BASE_OFFSET + 2 ≤ 3860005 ∧ 3860005 ≤ KIRBY_ITEM_ID_BASE_OFFSET + 9 ∧
      pending_state.AP_IN_FLAG = 1 ∧ pending_state.AP_IN_ITEM_ID = 3860005) ∧
    (ap_poll_mailbox_c pending_state).KIRBY_LIVES = pending_state.KIRBY_LIVES :=
  ⟨⟨by decide, by decide, by decide⟩,
    ((effect_frames life_state_5 3860001).2.1 (by decide)).2 (by decide) (by decide),
    ⟨by decide, by decide, by decide, by decide⟩,
    ((effect_frames pending_state 3860005).2.2 (by decide) (by decide)).2
      (by decide) (by decide)⟩

/-- C18: for an identifier `id` in `base + 2 .. base + 9` the 32-bit
subtraction `id - (base + 2)` gives the true difference, which lies in 0..7;
the mask `(uint8_t)(1u << shard_index)` equals `1 << shard_index` (nothing is
lost to the truncation), is not zero and has exactly the bit `shard_index` set;
identifiers in the range that differ give masks that differ. For
`id < base + 2` the subtraction would wrap to at least 32, and the applier does
not depend on the decoding there. -/
theorem shard_decoding_safe (id id2 : Nat)
    (hlo : KIRBY_ITEM_ID_BASE_OFFSET + 2 ≤ id) (hhi : id ≤ KIRBY_ITEM_ID_BASE_OFFSET + 9)
    (hlo2 : KIRBY_ITEM_ID_BASE_OFFSET + 2 ≤ id2) (hhi2 : id2 ≤ KIRBY_ITEM_ID_BASE_OFFSET + 9) :
    (shard_index id : Int) = (id : Int) - ((KIRBY_ITEM_ID_BASE_OFFSET : Int) + 2) ∧
    shard_index id < 8 ∧
    mask (shard_index id) = 1 <<< shard_index id ∧
    mask (shard_index id) ≠ 0 ∧
    (∀ j, (mask (shard_index id)).testBit j = decide (shard_index id = j)) ∧
    (id ≠ id2 → mask (shard_index id) ≠ mask (shard_index id2)) ∧
    (∀ s : State,
      ap_apply_item id s
        = { s with AP_SHARD_BITFIELD := (s.AP_SHARD_BITFIELD ||| mask (shard_index id)) % 2 ^ 32,
                   KIRBY_SHARD_FLAGS
                     := (s.KIRBY_SHARD_FLAGS ||| mask (shard_index id)) % 2 ^ 8 }) ∧
    (∀ (i : Nat) (s : State) (d1 d2 : Nat → Nat), i < KIRBY_ITEM_ID_BASE_OFFSET + 2 →
      i < 2 ^ 32 → 32 ≤ shard_index i ∧
      ap_apply_item_with d1 i s = ap_apply_item_with d2 i s ∧
      ap_apply_item_with d1 i s = ap_apply_item i s) := by
  obtain ⟨k, hk, rfl⟩ : ∃ k, k < 8 ∧ id = KIRBY_ITEM_ID_BASE_OFFSET + 2 + k :=
    ⟨id - (KIRBY_ITEM_ID_BASE_OFFSET + 2), by omega, by omega⟩
  obtain ⟨k2, hk2, rfl⟩ : ∃ k, k < 8 ∧ id2 = KIRBY_ITEM_ID_BASE_OFFSET + 2 + k :=
    ⟨id2 - (KIRBY_ITEM_ID_BASE_OFFSET + 2), by omega, by omega⟩
  rw [shard_index_eq k hk, shard_index_eq k2 hk2, mask_eq k hk, mask_eq k2 hk2]
  refine ⟨?_, hk, (Nat.one_shiftLeft k).symm, Nat.pos_iff_ne_zero.mp (Nat.two_pow_pos k),
    fun j => Nat.testBit_two_pow, ?_, ?_, ?_⟩
  · push_cast
    omega
  · intro hne heq
    have hkk : k = k2 := Nat.pow_right_injective (Nat.le_refl 2) heq
    exact hne (by rw [hkk])
  · intro s
    rw [ap_apply_item_shard s k hk]
    rfl
  · intro i s d1 d2 hi hi32
    have hidx : 32 ≤ shard_index i := by
      simp only [shard_index, KIRBY_ITEM_ID_BASE_OFFSET, U32] at hi ⊢
      omega
    have hwith : ∀ d : Nat → Nat, ap_apply_item_with d i s = ap_apply_item i s := by
      intro d
      have hr : ¬ ((KIRBY_ITEM_ID_BASE_OFFSET + 2) % U32 ≤ i ∧
          i ≤ (KIRBY_ITEM_ID_BASE_OFFSET + 9) % U32) := by
        simp only [KIRBY_ITEM_ID_BASE_OFFSET, U32] at hi ⊢
        omega
      unfold ap_apply_item_with ap_apply_item
      rw [if_neg hr, if_neg hr]
    exact ⟨hidx, by rw [hwith d1, hwith d2], hwith d1⟩

theorem shard_decoding_safe_witness :
    (KIRBY_ITEM_ID_BASE_OFFSET + 2 ≤ 3860005 ∧ 3860005 ≤ KIRBY_ITEM_ID_BASE_OFFSET + 9 ∧
      KIRBY_ITEM_ID_BASE_OFFSET + 2 ≤ 3860009 ∧ 3860009 ≤ KIRBY_ITEM_ID_BASE_OFFSET + 9 ∧
      3860005 ≠ 3860009) ∧
    shard_index 3860005 < 8 ∧
    mask (shard_index 3860005) ≠ mask (shard_index 3860009) :=
  ⟨⟨by decide, by decide, by decide, by decide, by decide⟩,
    (shard_decoding_safe 3860005 3860009 (by decide) (by decide) (by decide) (by decide)).2.1,
    (shard_decoding_safe 3860005 3860009 (by decide) (by decide) (by decide)
      (by decide)).2.2.2.2.2.1 (by decide)⟩

end KirbyAP
